import Mathlib

/-!
# radiusd command handlers (`cmd.go`)

A shallow embedding of the four RADIUS command handlers of `cmd.go`
(`auth`, `acctBegin`, `acctUpdate`, `acctStop`) and of `createSess`.

* Go byte slices and Go strings are both byte sequences (`Bytes`); the
  conversions `string(b)` and `[]byte(s)` are the identity.
* `req.Attrs` is a Go map from attribute type to an attribute struct; a
  missing key yields the zero struct, whose `Value` is the empty slice.
* The packages `radius`, `model`, `queue` and `config` are not part of
  `cmd.go`.  The value-returning functions of `radius` (and `crypto/md5`,
  `net.ParseIP`) are the fields of `Codec`; the store operations of `model`
  are the fields of `Backend`, over an abstract committed store `DB` and an
  abstract open transaction `Txn`.  The general theorems hold for every digest
  function; `md5` is the digest of `crypto/md5` itself (RFC 1321) and
  `digestCodec` the sample codec that uses it.
* A handler run yields the committed store it leaves behind, the
  chronological list of effects it performed (`Event`) and whether it ended
  in a Go run-time panic.
-/

namespace Radiusd

/-- Byte sequences: Go `[]byte` and Go `string`. -/
abbrev Bytes := List Nat

/-- The attribute types named in `cmd.go`. -/
inductive AttributeType
  | UserName | UserPassword | CHAPPassword | CHAPChallenge
  | NASIPAddress | FramedIPAddress | CallingStationId
  | AcctSessionId | AcctSessionTime
  | AcctInputOctets | AcctOutputOctets | AcctInputPackets | AcctOutputPackets
  | VendorSpecific
  deriving DecidableEq

/-- The packet codes named in `cmd.go`. -/
inductive PacketCode
  | AccessRequest | AccessAccept | AccessReject
  | AccountingRequest | AccountingResponse
  deriving DecidableEq

/-- Vendor identifiers named in `cmd.go`. -/
inductive VendorId
  | MikrotikVendor | MicrosoftVendor
  deriving DecidableEq

/-- Vendor-local attribute types named in `cmd.go`. -/
inductive VendorType
  | MikrotikRateLimit | MSPrimaryDNSServer | MSSecondaryDNSServer
  deriving DecidableEq

/-- A decoded request: `radius.Packet`, of which `cmd.go` reads `Attrs`. -/
structure Packet where
  Code : PacketCode
  Identifier : Nat
  Auth : Bytes
  Attrs : AttributeType → Option Bytes

/-- The Go expression `req.Attrs[t].Value`: the zero value when `t` is missing. -/
def Packet.value (req : Packet) (t : AttributeType) : Bytes :=
  (req.Attrs t).getD []

/-- The Go expression `_, there := req.Attrs[t]`. -/
def Packet.has (req : Packet) (t : AttributeType) : Bool :=
  (req.Attrs t).isSome

/-- A response attribute: `radius.PubAttr`. -/
structure PubAttr where
  Type_ : AttributeType
  Value : Bytes
  deriving DecidableEq

/-- A vendor sub-attribute: `radius.VendorAttrString`. -/
structure VendorAttrString where
  Type_ : VendorType
  Value : Bytes
  deriving DecidableEq

/-- A vendor attribute before encoding: `radius.VendorAttr`. -/
structure VendorAttr where
  Type_ : AttributeType
  VendorId : VendorId
  Values : List VendorAttrString
  deriving DecidableEq

/-- The per-user policy record returned by `model.Auth` and `model.Limits`. -/
structure Limits where
  Pass : Bytes
  Ok : Bool
  SimultaneousUse : Int
  DedicatedIP : Option Bytes
  Ratelimit : Option Bytes
  DnsOne : Option Bytes
  DnsTwo : Option Bytes
  deriving DecidableEq

/-- The session snapshot `model.Session` built by `createSess`. -/
structure Session where
  BytesIn : Nat
  BytesOut : Nat
  PacketsIn : Nat
  PacketsOut : Nat
  SessionID : Bytes
  SessionTime : Nat
  User : Bytes
  NasIP : Bytes
  deriving DecidableEq

/-- Errors returned by `model`: `model.ErrNoRows` or any other error. -/
inductive ModelError
  | ErrNoRows
  | other (msg : String)
  deriving DecidableEq

deriving instance DecidableEq for Except

/-- The process configuration read by `cmd.go`: `config.Verbose`. -/
structure Config where
  Verbose : Bool

/-- The value-returning functions of package `radius` (and of `crypto/md5`
and `net`) that `cmd.go` calls. -/
structure Codec where
  ValidateAuthRequest : Packet → String
  ValidateAcctRequest : Packet → String
  DecryptPassword : Bytes → Packet → Bytes
  DecodeFour : Bytes → Nat
  DecodeIP : Bytes → Bytes
  ParseIPTo4 : Bytes → Bytes
  Encode : VendorAttr → PubAttr
  md5 : Bytes → Bytes

/-- The store operations of package `model` that `cmd.go` calls.  Reads see
the committed store; the mutations of a transaction act on the open
transaction and reach the committed store only through `Commit`. -/
structure Backend (DB Txn : Type) where
  Auth : DB → Bytes → Except ModelError Limits
  Conns : DB → Bytes → Except ModelError Int
  Limits : DB → Bytes → Except ModelError Limits
  SessionAdd : DB → Bytes → Bytes → Bytes → Bytes → Bytes → Except ModelError DB
  Begin : DB → Except ModelError Txn
  SessionUpdate : Txn → Session → Except ModelError Txn
  SessionLog : Txn → Bytes → Bytes → Bytes → Except ModelError Txn
  SessionRemove : Txn → Bytes → Bytes → Bytes → Except ModelError Txn
  Commit : DB → Txn → Except ModelError DB

/-- What a handler hands to `w.Write`: the packet built by
`radius.DefaultPacket(req, code, msg)` or by `req.Response(code, attrs)`. -/
inductive Written
  | DefaultPacket (code : PacketCode) (msg : String)
  | Response (code : PacketCode) (attrs : List PubAttr)
  deriving DecidableEq

/-- The effects a handler performs, in the order it performs them.  The flag
of a store operation tells whether it returned without error. -/
inductive Event
  | log (fmt : String)
  | Auth (user : Bytes)
  | Conns (user : Bytes)
  | Limits (user : Bytes)
  | SessionAdd (sess user nasIp assignedIp clientIp : Bytes) (ok : Bool)
  | Begin (ok : Bool)
  | SessionUpdate (s : Session) (ok : Bool)
  | SessionLog (sess user nasIp : Bytes) (ok : Bool)
  | SessionRemove (sess user nasIp : Bytes) (ok : Bool)
  | Queue (user : Bytes) (bytesIn bytesOut packetsIn packetsOut : Nat)
  | Commit (ok : Bool)
  | write (p : Written)
  deriving DecidableEq

/-- The result of running a handler. -/
structure Run (DB : Type) where
  db : DB
  trace : List Event
  panicked : Bool

/-- The packet an effect writes to `w`, if it is a write. -/
def Event.written : Event → Option Written
  | Event.write p => some p
  | _ => none

/-- Whether an effect is a usage-queue notification. -/
def Event.isQueue : Event → Bool
  | Event.Queue _ _ _ _ _ => true
  | _ => false

/-- Whether an effect is a log line. -/
def Event.isLog : Event → Bool
  | Event.log _ => true
  | _ => false

/-- Whether an effect is a store operation that returned an error. -/
def Event.failed : Event → Bool
  | Event.SessionAdd _ _ _ _ _ ok => !ok
  | Event.Begin ok => !ok
  | Event.SessionUpdate _ ok => !ok
  | Event.SessionLog _ _ _ ok => !ok
  | Event.SessionRemove _ _ _ ok => !ok
  | Event.Commit ok => !ok
  | _ => false

/-- The packets written to `w`, in order. -/
def Run.writes {DB : Type} (r : Run DB) : List Written :=
  r.trace.filterMap Event.written

/-- The usage-queue notifications, in order. -/
def Run.queued {DB : Type} (r : Run DB) : List Event :=
  r.trace.filter Event.isQueue

/-- The run wrote exactly one packet, an Access-Accept. -/
def Run.accepts {DB : Type} (r : Run DB) : Bool :=
  match r.writes with
  | [Written.Response PacketCode.AccessAccept _] => true
  | _ => false

/-- The run wrote exactly one packet, the Access-Reject carrying `reason`. -/
def Run.rejects {DB : Type} (r : Run DB) (reason : String) : Bool :=
  r.writes == [Written.DefaultPacket PacketCode.AccessReject reason]

/-- The log lines emitted when `config.Verbose` is set. -/
def verboseLog (cfg : Config) (fmt : String) : List Event :=
  if cfg.Verbose then [Event.log fmt] else []

/-- The function `createSess` of `cmd.go`. -/
def createSess (c : Codec) (req : Packet) : Session where
  BytesIn := c.DecodeFour (req.value AttributeType.AcctInputOctets)
  BytesOut := c.DecodeFour (req.value AttributeType.AcctOutputOctets)
  PacketsIn := c.DecodeFour (req.value AttributeType.AcctInputPackets)
  PacketsOut := c.DecodeFour (req.value AttributeType.AcctOutputPackets)
  SessionID := req.value AttributeType.AcctSessionId
  SessionTime := c.DecodeFour (req.value AttributeType.AcctSessionTime)
  User := req.value AttributeType.UserName
  NasIP := c.DecodeIP (req.value AttributeType.NASIPAddress)

/-- Lines 106-123 of `auth`: the reply attributes for `DedicatedIP` and
`Ratelimit`. -/
def replyHead (c : Codec) (limits : Limits) : List PubAttr :=
  let reply : List PubAttr := []
  let reply := match limits.DedicatedIP with
    | some ip => reply ++ [PubAttr.mk AttributeType.FramedIPAddress (c.ParseIPTo4 ip)]
    | none => reply
  match limits.Ratelimit with
    | some rl => reply ++ [c.Encode (VendorAttr.mk AttributeType.VendorSpecific
        VendorId.MikrotikVendor [VendorAttrString.mk VendorType.MikrotikRateLimit rl])]
    | none => reply

/-- Lines 95-146 of `auth`: the part after the credential check, run after
the effects `pre`. -/
def authAfterCredential {DB Txn : Type} (c : Codec) (m : Backend DB Txn) (db : DB)
    (user : Bytes) (limits : Limits) (pre : List Event) : Run DB :=
  match m.Conns db user with
  | Except.error _ =>
    Run.mk db (pre ++ [Event.Conns user, Event.log "auth.begin e="]) false
  | Except.ok conns =>
    if conns ≥ limits.SimultaneousUse then
      Run.mk db (pre ++ [Event.Conns user,
        Event.write (Written.DefaultPacket PacketCode.AccessReject "Max conns reached")]) false
    else if limits.Ok then
      let reply := replyHead c limits
      match limits.DnsOne with
      | some dnsOne =>
        match limits.DnsTwo with
        | some dnsTwo =>
          let reply := reply ++ [c.Encode (VendorAttr.mk AttributeType.VendorSpecific
            VendorId.MicrosoftVendor
            [VendorAttrString.mk VendorType.MSPrimaryDNSServer (c.ParseIPTo4 dnsOne),
             VendorAttrString.mk VendorType.MSSecondaryDNSServer (c.ParseIPTo4 dnsTwo)])]
          Run.mk db (pre ++ [Event.Conns user,
            Event.write (Written.Response PacketCode.AccessAccept reply)]) false
        | none =>
          -- `*limits.DnsTwo` dereferences a nil pointer
          Run.mk db (pre ++ [Event.Conns user]) true
      | none =>
        Run.mk db (pre ++ [Event.Conns user,
          Event.write (Written.Response PacketCode.AccessAccept reply)]) false
    else
      Run.mk db (pre ++ [Event.Conns user,
        Event.write (Written.DefaultPacket PacketCode.AccessReject "Invalid user/pass")]) false

/-- The handler `auth` of `cmd.go`. -/
def auth {DB Txn : Type} (cfg : Config) (c : Codec) (m : Backend DB Txn) (db : DB)
    (req : Packet) : Run DB :=
  if c.ValidateAuthRequest req ≠ "" then
    Run.mk db [Event.log "auth.begin e=%s"] false
  else
    let user := req.value AttributeType.UserName
    let raw := req.value AttributeType.UserPassword
    match m.Auth db user with
    | Except.error _ =>
      Run.mk db [Event.Auth user, Event.log "auth.begin e="] false
    | Except.ok limits =>
      if limits.Pass = [] then
        Run.mk db [Event.Auth user,
          Event.write (Written.DefaultPacket PacketCode.AccessReject "No such user")] false
      else if req.has AttributeType.UserPassword then
        let pass := c.DecryptPassword raw req
        if pass ≠ limits.Pass then
          Run.mk db [Event.Auth user,
            Event.write (Written.DefaultPacket PacketCode.AccessReject "Invalid password")] false
        else
          authAfterCredential c m db user limits
            ([Event.Auth user] ++ verboseLog cfg "PAP login user=%s")
      else if req.has AttributeType.CHAPPassword then
        let raw := req.value AttributeType.CHAPPassword
        let challenge := req.value AttributeType.CHAPChallenge
        if raw = [] then
          -- `Value[1:]` on an empty slice: slice bounds out of range
          Run.mk db [Event.Auth user] true
        else
          let hash := raw.drop 1
          let calc_ := c.md5 (raw.take 1 ++ limits.Pass ++ challenge)
          if hash ≠ calc_ then
            Run.mk db ([Event.Auth user]
              ++ verboseLog cfg "CHAP user=%s mismatch expect=%x, received=%x"
              ++ [Event.write (Written.DefaultPacket PacketCode.AccessReject "Invalid password")])
              false
          else
            authAfterCredential c m db user limits
              ([Event.Auth user] ++ verboseLog cfg "CHAP login user=%s")
      else
        Run.mk db [Event.Auth user,
          Event.log "auth.begin Unsupported auth-type (neither PAP/CHAP)"] false

/-- The handler `acctBegin` of `cmd.go`. -/
def acctBegin {DB Txn : Type} (cfg : Config) (c : Codec) (m : Backend DB Txn) (db : DB)
    (req : Packet) : Run DB :=
  if c.ValidateAcctRequest req ≠ "" then
    Run.mk db [Event.log "WARN: acct.begin err="] false
  else if ¬ req.has AttributeType.FramedIPAddress then
    Run.mk db [Event.log "WARN: acct.begin missing FramedIPAddress"] false
  else
    let user := req.value AttributeType.UserName
    let sess := req.value AttributeType.AcctSessionId
    let nasIp := c.DecodeIP (req.value AttributeType.NASIPAddress)
    let clientIp := req.value AttributeType.CallingStationId
    let assignedIp := c.DecodeIP (req.value AttributeType.FramedIPAddress)
    let pre := verboseLog cfg "acct.begin sess=%s for user=%s on nasIP=%s"
    let reply : List PubAttr := []
    match m.Limits db user with
    | Except.error e =>
      if e = ModelError.ErrNoRows then
        Run.mk db (pre ++ [Event.Limits user,
          Event.log "acct.begin received invalid user="]) false
      else
        Run.mk db (pre ++ [Event.Limits user, Event.log "acct.begin e="]) false
    | Except.ok _ =>
      match m.SessionAdd db sess user nasIp assignedIp clientIp with
      | Except.error _ =>
        Run.mk db (pre ++ [Event.Limits user,
          Event.SessionAdd sess user nasIp assignedIp clientIp false,
          Event.log "acct.begin e=%s"]) false
      | Except.ok db1 =>
        Run.mk db1 (pre ++ [Event.Limits user,
          Event.SessionAdd sess user nasIp assignedIp clientIp true,
          Event.write (Written.Response PacketCode.AccountingResponse reply)]) false

/-- The handler `acctUpdate` of `cmd.go`. -/
def acctUpdate {DB Txn : Type} (cfg : Config) (c : Codec) (m : Backend DB Txn) (db : DB)
    (req : Packet) : Run DB :=
  if c.ValidateAcctRequest req ≠ "" then
    Run.mk db [Event.log "acct.update e="] false
  else
    let sess := createSess c req
    let pre := verboseLog cfg
      "acct.update sess=%s for user=%s on NasIP=%s sessTime=%d octetsIn=%d octetsOut=%d"
    match m.Begin db with
    | Except.error _ =>
      Run.mk db (pre ++ [Event.Begin false, Event.log "acct.update e="]) false
    | Except.ok txn =>
      match m.SessionUpdate txn sess with
      | Except.error _ =>
        Run.mk db (pre ++ [Event.Begin true, Event.SessionUpdate sess false,
          Event.log "acct.update e="]) false
      | Except.ok txn1 =>
        match m.Commit db txn1 with
        | Except.error _ =>
          Run.mk db (pre ++ [Event.Begin true, Event.SessionUpdate sess true,
            Event.Queue sess.User sess.BytesIn sess.BytesOut sess.PacketsIn sess.PacketsOut,
            Event.Commit false, Event.log "acct.update e="]) false
        | Except.ok db1 =>
          Run.mk db1 (pre ++ [Event.Begin true, Event.SessionUpdate sess true,
            Event.Queue sess.User sess.BytesIn sess.BytesOut sess.PacketsIn sess.PacketsOut,
            Event.Commit true,
            Event.write (Written.DefaultPacket PacketCode.AccountingResponse
              "Updated accounting.")]) false

/-- The handler `acctStop` of `cmd.go`. -/
def acctStop {DB Txn : Type} (cfg : Config) (c : Codec) (m : Backend DB Txn) (db : DB)
    (req : Packet) : Run DB :=
  if c.ValidateAcctRequest req ≠ "" then
    Run.mk db [Event.log "acct.stop e="] false
  else
    let user := req.value AttributeType.UserName
    let sess := req.value AttributeType.AcctSessionId
    let nasIp := c.DecodeIP (req.value AttributeType.NASIPAddress)
    let octIn := c.DecodeFour (req.value AttributeType.AcctInputOctets)
    let octOut := c.DecodeFour (req.value AttributeType.AcctOutputOctets)
    let packIn := c.DecodeFour (req.value AttributeType.AcctInputPackets)
    let packOut := c.DecodeFour (req.value AttributeType.AcctOutputPackets)
    let pre := verboseLog cfg
      "acct.stop sess=%s for user=%s sessTime=%d octetsIn=%d octetsOut=%d"
    match m.Begin db with
    | Except.error _ =>
      Run.mk db (pre ++ [Event.Begin false, Event.log "acct.update e="]) false
    | Except.ok txn =>
      let sessModel := createSess c req
      match m.SessionUpdate txn sessModel with
      | Except.error _ =>
        Run.mk db (pre ++ [Event.Begin true, Event.SessionUpdate sessModel false,
          Event.log "acct.update e="]) false
      | Except.ok txn1 =>
        match m.SessionLog txn1 sess user nasIp with
        | Except.error _ =>
          Run.mk db (pre ++ [Event.Begin true, Event.SessionUpdate sessModel true,
            Event.SessionLog sess user nasIp false, Event.log "acct.update e="]) false
        | Except.ok txn2 =>
          match m.SessionRemove txn2 sess user nasIp with
          | Except.error _ =>
            Run.mk db (pre ++ [Event.Begin true, Event.SessionUpdate sessModel true,
              Event.SessionLog sess user nasIp true,
              Event.SessionRemove sess user nasIp false, Event.log "acct.update e="]) false
          | Except.ok txn3 =>
            match m.Commit db txn3 with
            | Except.error _ =>
              Run.mk db (pre ++ [Event.Begin true, Event.SessionUpdate sessModel true,
                Event.SessionLog sess user nasIp true,
                Event.SessionRemove sess user nasIp true,
                Event.Queue user octIn octOut packIn packOut,
                Event.Commit false, Event.log "acct.update e="]) false
            | Except.ok db1 =>
              Run.mk db1 (pre ++ [Event.Begin true, Event.SessionUpdate sessModel true,
                Event.SessionLog sess user nasIp true,
                Event.SessionRemove sess user nasIp true,
                Event.Queue user octIn octOut packIn packOut,
                Event.Commit true,
                Event.write (Written.DefaultPacket PacketCode.AccountingResponse
                  "Finished accounting.")]) false

/-- The credential check of `auth` (lines 46-93) lets the run continue to the
session count: the PAP branch is taken and the decrypted password equals
`pass`, or the CHAP branch is taken, the `CHAPPassword` value is not empty and
its bytes after the first equal the digest. -/
def credentialOk (c : Codec) (req : Packet) (pass : Bytes) : Prop :=
  if req.has AttributeType.UserPassword then
    c.DecryptPassword (req.value AttributeType.UserPassword) req = pass
  else
    req.has AttributeType.CHAPPassword = true
      ∧ req.value AttributeType.CHAPPassword ≠ []
      ∧ (req.value AttributeType.CHAPPassword).drop 1
          = c.md5 ((req.value AttributeType.CHAPPassword).take 1 ++ pass
              ++ req.value AttributeType.CHAPChallenge)

instance (c : Codec) (req : Packet) (pass : Bytes) : Decidable (credentialOk c req pass) := by
  unfold credentialOk
  infer_instance

/-- The credential check of `auth` (lines 46-93) ends the run at one of its
two `Invalid password` rejects: the PAP branch is taken and the decrypted
password differs from `pass`, or the CHAP branch is taken, the `CHAPPassword`
value is not empty and its bytes after the first differ from the digest. -/
def credentialMismatch (c : Codec) (req : Packet) (pass : Bytes) : Prop :=
  if req.has AttributeType.UserPassword then
    c.DecryptPassword (req.value AttributeType.UserPassword) req ≠ pass
  else
    req.has AttributeType.CHAPPassword = true
      ∧ req.value AttributeType.CHAPPassword ≠ []
      ∧ (req.value AttributeType.CHAPPassword).drop 1
          ≠ c.md5 ((req.value AttributeType.CHAPPassword).take 1 ++ pass
              ++ req.value AttributeType.CHAPChallenge)

instance (c : Codec) (req : Packet) (pass : Bytes) :
    Decidable (credentialMismatch c req pass) := by
  unfold credentialMismatch
  infer_instance

/-- The request `req` with the value of attribute `t` replaced by `v`. -/
def Packet.setAttr (req : Packet) (t : AttributeType) (v : Bytes) : Packet :=
  Packet.mk req.Code req.Identifier req.Auth fun u => if u = t then some v else req.Attrs u

/-- The byte sequence `b` with bit `k` of the byte at index `i` inverted. -/
def flipBit (b : Bytes) (i k : Nat) : Bytes :=
  b.modify (fun x => x ^^^ 2 ^ k) i

/-- The outcome of an `auth` run as seen from outside: nothing written, one
Access-Reject with a reason, one Access-Accept, a run-time panic, or any other
sequence of writes. -/
inductive Decision
  | noResponse
  | reject (reason : String)
  | accept
  | fault
  | other
  deriving DecidableEq

/-- The outcome of a run. -/
def Run.decision {DB : Type} (r : Run DB) : Decision :=
  if r.panicked then Decision.fault
  else
    match r.writes with
    | [] => Decision.noResponse
    | [Written.DefaultPacket PacketCode.AccessReject reason] => Decision.reject reason
    | [Written.Response PacketCode.AccessAccept _] => Decision.accept
    | _ => Decision.other

/-- The credential mismatch of the reference decision, in the words of the
specification: for PAP the decrypted `UserPassword` differs from `Pass`; for
CHAP the digest of the first byte of `CHAPPassword`, `Pass` and the challenge
differs from the remaining bytes of `CHAPPassword`. -/
def referenceMismatch (c : Codec) (req : Packet) (pass : Bytes) : Bool :=
  if req.has AttributeType.UserPassword then
    decide (c.DecryptPassword (req.value AttributeType.UserPassword) req ≠ pass)
  else if req.has AttributeType.CHAPPassword then
    decide (c.md5 ((req.value AttributeType.CHAPPassword).take 1 ++ pass
        ++ req.value AttributeType.CHAPChallenge)
      ≠ (req.value AttributeType.CHAPPassword).drop 1)
  else false

/-- The reference decision of the specification: the checks in strict order,
the first failing one deciding. -/
def referenceDecision {DB Txn : Type} (c : Codec) (m : Backend DB Txn) (db : DB)
    (req : Packet) : Decision :=
  if c.ValidateAuthRequest req ≠ "" then Decision.noResponse
  else
    match m.Auth db (req.value AttributeType.UserName) with
    | Except.error _ => Decision.noResponse
    | Except.ok limits =>
      if limits.Pass = [] then Decision.reject "No such user"
      else if referenceMismatch c req limits.Pass then Decision.reject "Invalid password"
      else if req.has AttributeType.UserPassword = false
          ∧ req.has AttributeType.CHAPPassword = false then Decision.noResponse
      else
        match m.Conns db (req.value AttributeType.UserName) with
        | Except.error _ => Decision.noResponse
        | Except.ok conns =>
          if conns ≥ limits.SimultaneousUse then Decision.reject "Max conns reached"
          else if limits.Ok = false then Decision.reject "Invalid user/pass"
          else Decision.accept

/-- In a trace, nothing but log lines follows the first store operation that
returned an error. -/
def stopsAtFirstFailure : List Event → Bool
  | [] => true
  | ev :: rest => if ev.failed then rest.all Event.isLog else stopsAtFirstFailure rest

/-- Whether an effect is one of the session operations `SessionLog`,
`SessionUpdate` or `SessionRemove`. -/
def Event.isLogUpdateRemove : Event → Bool
  | Event.SessionLog _ _ _ _ => true
  | Event.SessionUpdate _ _ => true
  | Event.SessionRemove _ _ _ _ => true
  | _ => false

/-- Whether an effect is a call of `SessionAdd`. -/
def Event.isSessionAdd : Event → Bool
  | Event.SessionAdd _ _ _ _ _ _ => true
  | _ => false

/-- The `SessionAdd` call the specification expects of `acctBegin`: the
request's `AcctSessionId`, `UserName`, decoded `NASIPAddress`, decoded
`FramedIPAddress` and `CallingStationId`, with the flag telling whether the
call returned without error. -/
def expectedSessionAdd (c : Codec) (req : Packet) (ok : Bool) : Event :=
  Event.SessionAdd (req.value AttributeType.AcctSessionId)
    (req.value AttributeType.UserName)
    (c.DecodeIP (req.value AttributeType.NASIPAddress))
    (c.DecodeIP (req.value AttributeType.FramedIPAddress))
    (req.value AttributeType.CallingStationId) ok

/-- The reply attributes of an Access-Accept in the words of the
specification: one attribute for each policy field that is set among
`DedicatedIP` (a `FramedIPAddress` attribute), `Ratelimit` (a Mikrotik vendor
attribute carrying the rate-limit string) and `DnsOne` (one Microsoft vendor
attribute carrying primary then secondary DNS), in this order. -/
def referenceReply (c : Codec) (limits : Limits) : List PubAttr :=
  (match limits.DedicatedIP with
    | some ip => [PubAttr.mk AttributeType.FramedIPAddress (c.ParseIPTo4 ip)]
    | none => [])
  ++ (match limits.Ratelimit with
    | some rl => [c.Encode (VendorAttr.mk AttributeType.VendorSpecific VendorId.MikrotikVendor
        [VendorAttrString.mk VendorType.MikrotikRateLimit rl])]
    | none => [])
  ++ (match limits.DnsOne with
    | some dnsOne => [c.Encode (VendorAttr.mk AttributeType.VendorSpecific
        VendorId.MicrosoftVendor
        [VendorAttrString.mk VendorType.MSPrimaryDNSServer (c.ParseIPTo4 dnsOne),
         VendorAttrString.mk VendorType.MSSecondaryDNSServer
           (c.ParseIPTo4 (limits.DnsTwo.getD []))])]
    | none => [])

/-- The number of policy fields set among `DedicatedIP`, `Ratelimit` and
`DnsOne`. -/
def Limits.optionalSet (limits : Limits) : Nat :=
  (if limits.DedicatedIP.isSome then 1 else 0)
    + (if limits.Ratelimit.isSome then 1 else 0)
    + (if limits.DnsOne.isSome then 1 else 0)

/-- Whether an effect is one that `auth` may perform for the user `user`: a
log line, the policy lookup or the session count of `user`, or a write. -/
def Event.isAuthRead (user : Bytes) : Event → Bool
  | Event.log _ => true
  | Event.Auth u => u == user
  | Event.Conns u => u == user
  | Event.write _ => true
  | _ => false

/-- Whether an effect is a policy lookup `model.Auth`. -/
def Event.isAuthCall : Event → Bool
  | Event.Auth _ => true
  | _ => false

/-- Whether an effect is a session count `model.Conns`. -/
def Event.isConnsCall : Event → Bool
  | Event.Conns _ => true
  | _ => false

/-! ## The digest of `crypto/md5`

`cmd.go` calls `crypto/md5` directly; this is the algorithm of RFC 1321 on byte
sequences, with 32-bit words as natural numbers reduced modulo `2 ^ 32`. -/

/-- The additive constants of MD5 (RFC 1321): the integer part of `2^32 * |sin (i + 1)|`. -/
def md5K : List Nat :=
  [3614090360, 3905402710, 606105819, 3250441966, 4118548399, 1200080426, 2821735955,
   4249261313, 1770035416, 2336552879, 4294925233, 2304563134, 1804603682, 4254626195,
   2792965006, 1236535329, 4129170786, 3225465664, 643717713, 3921069994, 3593408605,
   38016083, 3634488961, 3889429448, 568446438, 3275163606, 4107603335, 1163531501,
   2850285829, 4243563512, 1735328473, 2368359562, 4294588738, 2272392833, 1839030562,
   4259657740, 2763975236, 1272893353, 4139469664, 3200236656, 681279174, 3936430074,
   3572445317, 76029189, 3654602809, 3873151461, 530742520, 3299628645, 4096336452,
   1126891415, 2878612391, 4237533241, 1700485571, 2399980690, 4293915773, 2240044497,
   1873313359, 4264355552, 2734768916, 1309151649, 4149444226, 3174756917, 718787259,
   3951481745]

/-- The per-step left-rotation amounts of MD5. -/
def md5S : List Nat :=
  [7, 12, 17, 22, 7, 12, 17, 22, 7, 12, 17, 22, 7, 12, 17, 22,
   5, 9, 14, 20, 5, 9, 14, 20, 5, 9, 14, 20, 5, 9, 14, 20,
   4, 11, 16, 23, 4, 11, 16, 23, 4, 11, 16, 23, 4, 11, 16, 23,
   6, 10, 15, 21, 6, 10, 15, 21, 6, 10, 15, 21, 6, 10, 15, 21]

/-- Rotation of a 32-bit word to the left. -/
def rotl32 (x s : Nat) : Nat :=
  ((x <<< s) ||| (x >>> (32 - s))) % 2 ^ 32

/-- Complement of a 32-bit word. -/
def not32 (x : Nat) : Nat :=
  (x % 2 ^ 32) ^^^ (2 ^ 32 - 1)

/-- The little-endian bytes of the low `8 * n` bits of `x`. -/
def leBytes : Nat → Nat → Bytes
  | 0, _ => []
  | n + 1, x => x % 256 :: leBytes n (x / 256)

/-- The little-endian value of a byte sequence. -/
def leValue (b : Bytes) : Nat :=
  b.foldr (fun x acc => x % 256 + 256 * acc) 0

/-- The MD5 padding: the message, the byte 0x80, zero bytes up to 56 modulo 64,
and the bit length as eight little-endian bytes. -/
def md5Pad (msg : Bytes) : Bytes :=
  msg.map (fun x => x % 256) ++ [128]
    ++ List.replicate ((119 - msg.length % 64) % 64) 0
    ++ leBytes 8 (8 * msg.length % 2 ^ 64)

/-- One of the 64 steps of the MD5 compression function on the state
`(a, b, c, d)` with the message words `w`. -/
def md5Step (w : List Nat) (st : Nat × Nat × Nat × Nat) (i : Nat) : Nat × Nat × Nat × Nat :=
  let (a, b, c, d) := st
  let f :=
    if i < 16 then (b &&& c) ||| (not32 b &&& d)
    else if i < 32 then (d &&& b) ||| (not32 d &&& c)
    else if i < 48 then b ^^^ c ^^^ d
    else c ^^^ (b ||| not32 d)
  let g :=
    if i < 16 then i
    else if i < 32 then (5 * i + 1) % 16
    else if i < 48 then (3 * i + 5) % 16
    else (7 * i) % 16
  let x := (f + a + md5K.getD i 0 + w.getD g 0) % 2 ^ 32
  (d, (b + rotl32 x (md5S.getD i 0)) % 2 ^ 32, b, c)

/-- The MD5 compression of one 64-byte block into the chaining value. -/
def md5Block (h : Nat × Nat × Nat × Nat) (block : Bytes) : Nat × Nat × Nat × Nat :=
  let w := (List.range 16).map fun j => leValue ((block.drop (4 * j)).take 4)
  let (a, b, c, d) := (List.range 64).foldl (md5Step w) h
  ((h.1 + a) % 2 ^ 32, (h.2.1 + b) % 2 ^ 32, (h.2.2.1 + c) % 2 ^ 32, (h.2.2.2 + d) % 2 ^ 32)

/-- The digest of `crypto/md5` (RFC 1321): `h := md5.New(); h.Write(msg); h.Sum(nil)`. -/
def md5 (msg : Bytes) : Bytes :=
  let p := md5Pad msg
  let blocks := (List.range (p.length / 64)).map fun j => (p.drop (64 * j)).take 64
  let (a, b, c, d) := blocks.foldl md5Block (1732584193, 4023233417, 2562383102, 271733878)
  leBytes 4 a ++ leBytes 4 b ++ leBytes 4 c ++ leBytes 4 d

/-! ## Sample collaborators

Concrete collaborators on which the handlers can be evaluated.  The theorems
below hold for every `Codec` and every `Backend`; these instances only
provide concrete inputs. -/

/-- Modelled from the spec: the request validator `radius.ValidateAuthRequest`
(package `radius` is not part of `cmd.go`).  An Access-Request is valid when
it carries `UserName` and exactly one of `UserPassword` or (`CHAPPassword`
and `CHAPChallenge`). -/
def sampleValidateAuth (req : Packet) : String :=
  if ¬ req.has AttributeType.UserName then "UserName missing"
  else
    let pap := req.has AttributeType.UserPassword
    let chap := req.has AttributeType.CHAPPassword && req.has AttributeType.CHAPChallenge
    if pap && chap then "both PAP and CHAP"
    else if pap || chap then ""
    else "no password"

/-- Modelled from the spec: the request validator `radius.ValidateAcctRequest`
(package `radius` is not part of `cmd.go`).  An Accounting-Request is valid
when it carries `UserName`, `AcctSessionId` and `NASIPAddress`. -/
def sampleValidateAcct (req : Packet) : String :=
  if req.has AttributeType.UserName && req.has AttributeType.AcctSessionId
      && req.has AttributeType.NASIPAddress then ""
  else "attribute missing"

/-- Big-endian value of a byte sequence. -/
def bigEndian (b : Bytes) : Nat :=
  b.foldl (fun acc x => acc * 256 + x % 256) 0

/-- A sample codec.  `DecryptPassword` and `md5` are stand-ins for the PAP
stream cipher and for `crypto/md5`: the cipher has the all-zero key stream and
the digest is the single byte holding the sum of the input bytes. -/
def sampleCodec : Codec where
  ValidateAuthRequest := sampleValidateAuth
  ValidateAcctRequest := sampleValidateAcct
  DecryptPassword := fun raw _ => raw
  DecodeFour := fun b => bigEndian (b.take 4)
  DecodeIP := fun b => b
  ParseIPTo4 := fun b => b
  Encode := fun v => PubAttr.mk v.Type_ (v.Values.flatMap fun x => x.Value)
  md5 := fun b => [b.sum % 256]

/-- The sample codec with the digest of `crypto/md5` in the place of the
stand-in digest. -/
def digestCodec : Codec :=
  { sampleCodec with md5 := md5 }

/-- The MD5 digest of the identifier byte 7, the password `secret` and the
challenge `[1, 2, 3]`: the CHAP response a client holding the password of `bob`
sends to the challenge of `chapRequest`. -/
def bobDigest : Bytes :=
  [205, 238, 182, 20, 32, 250, 158, 27, 45, 91, 0, 51, 104, 87, 185, 239]

/-- Modelled from the spec: the committed state of the policy and session
store of package `model` (not part of `cmd.go`): the policy records, the open
session rows and the terminal log. -/
structure Store where
  users : List (Bytes × Limits)
  sessions : List Session
  ended : List (Bytes × Bytes × Bytes)
  deriving DecidableEq

/-- Whether a session row has the given key. -/
def Session.hasKey (s : Session) (sess user nasIp : Bytes) : Bool :=
  s.SessionID == sess && s.User == user && s.NasIP == nasIp

/-- Modelled from the spec: the store operations of package `model` (not part
of `cmd.go`) on `Store`.  A policy lookup of an unknown user gives an empty
`Pass` in `Auth` and `ErrNoRows` in `Limits`; `Conns` counts the open rows of
the user; `SessionAdd` creates a row with zeroed counters; `SessionUpdate`
overwrites the counters of the rows with the key of the snapshot;
`SessionLog` appends a terminal log record; `SessionRemove` removes the rows
with the key and fails when there is none; a transaction works on a copy that
`Commit` installs. -/
def sampleBackend : Backend Store Store where
  Auth := fun db user =>
    match db.users.lookup user with
    | some l => Except.ok l
    | none => Except.ok (Limits.mk [] false 0 none none none none)
  Conns := fun db user =>
    Except.ok ((db.sessions.filter fun s => s.User == user).length : Int)
  Limits := fun db user =>
    match db.users.lookup user with
    | some l => Except.ok l
    | none => Except.error ModelError.ErrNoRows
  SessionAdd := fun db sess user nasIp _ _ =>
    Except.ok (Store.mk db.users (db.sessions ++ [Session.mk 0 0 0 0 sess 0 user nasIp]) db.ended)
  Begin := fun db => Except.ok db
  SessionUpdate := fun txn s =>
    Except.ok (Store.mk txn.users
      (txn.sessions.map fun r => if r.hasKey s.SessionID s.User s.NasIP then s else r)
      txn.ended)
  SessionLog := fun txn sess user nasIp =>
    Except.ok (Store.mk txn.users txn.sessions (txn.ended ++ [(sess, user, nasIp)]))
  SessionRemove := fun txn sess user nasIp =>
    if txn.sessions.any fun r => r.hasKey sess user nasIp then
      Except.ok (Store.mk txn.users
        (txn.sessions.filter fun r => !r.hasKey sess user nasIp) txn.ended)
    else Except.error (ModelError.other "no such session")
  Commit := fun _ txn => Except.ok txn

/-- The bytes of the user name `bob`. -/
def bob : Bytes := [98, 111, 98]

/-- The bytes of the password `secret`. -/
def secret : Bytes := [115, 101, 99, 114, 101, 116]

/-- The bytes of a NAS address. -/
def nas : Bytes := [10, 0, 0, 1]

/-- A policy record for `bob`: password `secret`, at most two sessions, no
optional field. -/
def bobLimits (ok : Bool) : Limits :=
  Limits.mk secret ok 2 none none none none

/-- An open session row of `bob` with the given session id. -/
def bobSession (sid : Nat) : Session :=
  Session.mk 0 0 0 0 [sid] 0 bob nas

/-- A store holding the policy of `bob` and `n` open sessions of `bob`. -/
def bobStore (ok : Bool) (n : Nat) : Store :=
  Store.mk [(bob, bobLimits ok)] ((List.range n).map bobSession) []

/-- A PAP Access-Request of `bob` carrying the password bytes `pw`. -/
def papRequest (pw : Bytes) : Packet :=
  Packet.mk PacketCode.AccessRequest 1 [] fun t =>
    match t with
    | AttributeType.UserName => some bob
    | AttributeType.UserPassword => some pw
    | _ => none

/-- A CHAP Access-Request of `bob` with identifier byte 7, the challenge
`[1, 2, 3]` and the received hash `hash`. -/
def chapRequest (hash : Bytes) : Packet :=
  Packet.mk PacketCode.AccessRequest 1 [] fun t =>
    match t with
    | AttributeType.UserName => some bob
    | AttributeType.CHAPPassword => some (7 :: hash)
    | AttributeType.CHAPChallenge => some [1, 2, 3]
    | _ => none

/-- The configuration with verbose logging off. -/
def quiet : Config := Config.mk false

/-- A request that carries no attribute at all. -/
def emptyRequest : Packet :=
  Packet.mk PacketCode.AccessRequest 0 [] fun _ => none

/-- A CHAP Access-Request of `bob` whose `CHAPPassword` attribute is present
with a value of length zero. -/
def emptyChapRequest : Packet :=
  Packet.mk PacketCode.AccessRequest 1 [] fun t =>
    match t with
    | AttributeType.UserName => some bob
    | AttributeType.CHAPPassword => some []
    | AttributeType.CHAPChallenge => some [1, 2, 3]
    | _ => none

/-- A policy record for `bob` with the dedicated address `[10, 0, 0, 9]`, the
rate limit `[49, 77]` and the DNS servers `[8, 8, 8, 8]` and `dnsTwo`. -/
def fullLimits (dnsTwo : Option Bytes) : Limits :=
  Limits.mk secret true 2 (some [10, 0, 0, 9]) (some [49, 77]) (some [8, 8, 8, 8]) dnsTwo

/-- An Accounting-Start request of `bob` for session `[5]` on the NAS `nas`,
with the assigned address 10.0.0.5 and a calling station id. -/
def startRequest : Packet :=
  Packet.mk PacketCode.AccountingRequest 3 [] fun t =>
    match t with
    | AttributeType.UserName => some bob
    | AttributeType.AcctSessionId => some [5]
    | AttributeType.NASIPAddress => some nas
    | AttributeType.FramedIPAddress => some [10, 0, 0, 5]
    | AttributeType.CallingStationId => some [1, 2]
    | _ => none

/-- The sample backend with a `Commit` that always fails. -/
def commitFails : Backend Store Store :=
  { sampleBackend with Commit := fun _ _ => Except.error (ModelError.other "commit failed") }

/-- An Accounting-Request of `bob` for session `[0]` on the NAS `nas`,
reporting 1000 octets in, 2000 octets out, 10 packets in, 20 packets out and
60 seconds of session time. -/
def acctRequest : Packet :=
  Packet.mk PacketCode.AccountingRequest 2 [] fun t =>
    match t with
    | AttributeType.UserName => some bob
    | AttributeType.AcctSessionId => some [0]
    | AttributeType.NASIPAddress => some nas
    | AttributeType.AcctInputOctets => some [0, 0, 3, 232]
    | AttributeType.AcctOutputOctets => some [0, 0, 7, 208]
    | AttributeType.AcctInputPackets => some [0, 0, 0, 10]
    | AttributeType.AcctOutputPackets => some [0, 0, 0, 20]
    | AttributeType.AcctSessionTime => some [0, 0, 0, 60]
    | _ => none

end Radiusd

/-! ## Theorems -/

namespace Radiusd

section Helpers

variable {DB Txn : Type}

theorem written_verboseLog (cfg : Config) (fmt : String) :
    (verboseLog cfg fmt).filterMap Event.written = [] := by
  unfold verboseLog
  split <;> simp [Event.written]

theorem isQueue_verboseLog (cfg : Config) (fmt : String) :
    (verboseLog cfg fmt).filter Event.isQueue = [] := by
  unfold verboseLog
  split <;> simp [Event.isQueue]

/-- The part of `auth` after the credential check, when the session count
cannot be read: nothing is written. -/
theorem after_conns_error (c : Codec) (m : Backend DB Txn) (db : DB) (user : Bytes)
    (limits : Limits) (pre : List Event) (e : ModelError)
    (hc : m.Conns db user = Except.error e) :
    authAfterCredential c m db user limits pre
      = Run.mk db (pre ++ [Event.Conns user, Event.log "auth.begin e="]) false := by
  simp [authAfterCredential, hc]

/-- The part of `auth` after the credential check, at or over the limit. -/
theorem after_conns_full (c : Codec) (m : Backend DB Txn) (db : DB) (user : Bytes)
    (limits : Limits) (pre : List Event) (n : Int)
    (hc : m.Conns db user = Except.ok n) (hn : n ≥ limits.SimultaneousUse) :
    authAfterCredential c m db user limits pre
      = Run.mk db (pre ++ [Event.Conns user,
          Event.write (Written.DefaultPacket PacketCode.AccessReject "Max conns reached")])
          false := by
  simp [authAfterCredential, hc, hn]

/-- The part of `auth` after the credential check, under the limit with the
authorization flag off. -/
theorem after_not_ok (c : Codec) (m : Backend DB Txn) (db : DB) (user : Bytes)
    (limits : Limits) (pre : List Event) (n : Int)
    (hc : m.Conns db user = Except.ok n) (hn : n < limits.SimultaneousUse)
    (hok : limits.Ok = false) :
    authAfterCredential c m db user limits pre
      = Run.mk db (pre ++ [Event.Conns user,
          Event.write (Written.DefaultPacket PacketCode.AccessReject "Invalid user/pass")])
          false := by
  have hn2 : ¬ n ≥ limits.SimultaneousUse := not_le.mpr hn
  simp [authAfterCredential, hc, hn2, hok]

/-- The part of `auth` after the credential check, under the limit with the
authorization flag on and a complete DNS pair: one Access-Accept. -/
theorem after_ok (c : Codec) (m : Backend DB Txn) (db : DB) (user : Bytes)
    (limits : Limits) (pre : List Event) (n : Int)
    (hc : m.Conns db user = Except.ok n) (hn : n < limits.SimultaneousUse)
    (hok : limits.Ok = true) (hdns : limits.DnsOne.isSome = true → limits.DnsTwo.isSome = true) :
    ∃ attrs, authAfterCredential c m db user limits pre
      = Run.mk db (pre ++ [Event.Conns user,
          Event.write (Written.Response PacketCode.AccessAccept attrs)]) false := by
  have hn2 : ¬ n ≥ limits.SimultaneousUse := not_le.mpr hn
  cases h1 : limits.DnsOne with
  | none => exact ⟨replyHead c limits, by simp [authAfterCredential, hc, hn2, hok, h1]⟩
  | some d1 =>
    cases h2 : limits.DnsTwo with
    | none => simp [h1, h2] at hdns
    | some d2 => exact ⟨_, by simp only [authAfterCredential, hc, hn2, hok, h1, h2, if_true, if_false]; rfl⟩

/-- The part of `auth` after the credential check, with `DnsOne` set and
`DnsTwo` missing: the run ends in a panic before anything is written. -/
theorem after_dns_panic (c : Codec) (m : Backend DB Txn) (db : DB) (user : Bytes)
    (limits : Limits) (pre : List Event) (n : Int)
    (hc : m.Conns db user = Except.ok n) (hn : n < limits.SimultaneousUse)
    (hok : limits.Ok = true) (h1 : limits.DnsOne.isSome = true) (h2 : limits.DnsTwo = none) :
    authAfterCredential c m db user limits pre
      = Run.mk db (pre ++ [Event.Conns user]) true := by
  have hn2 : ¬ n ≥ limits.SimultaneousUse := not_le.mpr hn
  obtain ⟨d1, hd1⟩ := Option.isSome_iff_exists.mp h1
  simp [authAfterCredential, hc, hn2, hok, hd1, h2]

/-- When the effects before it contain no write, the part of `auth` after the
credential check accepts exactly under the four conditions. -/
theorem after_accepts_iff (c : Codec) (m : Backend DB Txn) (db : DB) (user : Bytes)
    (limits : Limits) (pre : List Event) (hpre : pre.filterMap Event.written = []) :
    (authAfterCredential c m db user limits pre).accepts = true ↔
      ∃ n, m.Conns db user = Except.ok n ∧ n < limits.SimultaneousUse ∧ limits.Ok = true
        ∧ (limits.DnsOne.isSome = true → limits.DnsTwo.isSome = true) := by
  cases hc : m.Conns db user with
  | error e =>
    rw [after_conns_error c m db user limits pre e hc]
    simp [Run.accepts, Run.writes, hpre, Event.written]
  | ok n =>
    by_cases hn : n ≥ limits.SimultaneousUse
    · rw [after_conns_full c m db user limits pre n hc hn]
      simp [Run.accepts, Run.writes, hpre, Event.written, not_lt.mpr hn]
    · have hn1 : n < limits.SimultaneousUse := not_le.mp hn
      cases hok : limits.Ok with
      | false =>
        rw [after_not_ok c m db user limits pre n hc hn1 hok]
        simp [Run.accepts, Run.writes, hpre, Event.written]
      | true =>
        by_cases hdns : limits.DnsOne.isSome = true → limits.DnsTwo.isSome = true
        · obtain ⟨attrs, ha⟩ := after_ok c m db user limits pre n hc hn1 hok hdns
          rw [ha]
          simp only [Run.accepts, Run.writes, List.filterMap_append, hpre]
          simp [Event.written]
          exact ⟨hn1, hdns⟩
        · have h1 : limits.DnsOne.isSome = true := by
            by_contra h; exact hdns (fun h1 => absurd h1 h)
          have h2 : limits.DnsTwo = none := by
            cases h : limits.DnsTwo with
            | none => rfl
            | some d => exact absurd (fun _ => by simp [h]) hdns
          rw [after_dns_panic c m db user limits pre n hc hn1 hok h1 h2]
          simp only [Run.accepts, Run.writes, List.filterMap_append, hpre]
          simp [Event.written]
          exact fun _ => ⟨h1, h2⟩

/-- With a valid request, a known user and a passing credential check, `auth`
continues with the session count after effects that write nothing. -/
theorem auth_of_credentialOk (cfg : Config) (c : Codec) (m : Backend DB Txn) (db : DB)
    (req : Packet) (limits : Limits) (hv : c.ValidateAuthRequest req = "")
    (ha : m.Auth db (req.value AttributeType.UserName) = Except.ok limits)
    (hpass : limits.Pass ≠ []) (hcred : credentialOk c req limits.Pass) :
    ∃ pre, pre.filterMap Event.written = [] ∧ pre.filter Event.isQueue = []
      ∧ auth cfg c m db req
        = authAfterCredential c m db (req.value AttributeType.UserName) limits pre := by
  unfold credentialOk at hcred
  by_cases hp : req.has AttributeType.UserPassword = true
  · rw [if_pos hp] at hcred
    refine ⟨[Event.Auth (req.value AttributeType.UserName)]
      ++ verboseLog cfg "PAP login user=%s", ?_, ?_, ?_⟩
    · simp [written_verboseLog, Event.written]
    · simp [isQueue_verboseLog, Event.isQueue]
    · simp [auth, hv, ha, hpass, hp, hcred]
  · rw [if_neg hp] at hcred
    obtain ⟨hch, hraw, hhash⟩ := hcred
    refine ⟨[Event.Auth (req.value AttributeType.UserName)]
      ++ verboseLog cfg "CHAP login user=%s", ?_, ?_, ?_⟩
    · simp [written_verboseLog, Event.written]
    · simp [isQueue_verboseLog, Event.isQueue]
    · simp [auth, hv, ha, hpass, hp, hch, hraw, hhash]

/-- With a valid request, a known user and a failing credential check, `auth`
writes the `Invalid password` reject and nothing else. -/
theorem auth_of_credentialMismatch (cfg : Config) (c : Codec) (m : Backend DB Txn) (db : DB)
    (req : Packet) (limits : Limits) (hv : c.ValidateAuthRequest req = "")
    (ha : m.Auth db (req.value AttributeType.UserName) = Except.ok limits)
    (hpass : limits.Pass ≠ []) (hcred : credentialMismatch c req limits.Pass) :
    (auth cfg c m db req).writes
        = [Written.DefaultPacket PacketCode.AccessReject "Invalid password"]
      ∧ (auth cfg c m db req).trace.filter
          (fun ev => ev = Event.Conns (req.value AttributeType.UserName)) = []
      ∧ (auth cfg c m db req).panicked = false := by
  unfold credentialMismatch at hcred
  by_cases hp : req.has AttributeType.UserPassword = true
  · rw [if_pos hp] at hcred
    simp [auth, hv, ha, hpass, hp, hcred, Run.writes, Event.written]
  · rw [if_neg hp] at hcred
    obtain ⟨hch, hraw, hhash⟩ := hcred
    simp only [List.drop_one, List.append_assoc] at hhash
    cases hverb : cfg.Verbose <;>
      simp [auth, hv, ha, hpass, hp, hch, hraw, hhash, Run.writes, Event.written,
        verboseLog, hverb]

/-- Inverting one bit of a byte sequence changes it. -/
theorem flipBit_ne (b : Bytes) (i k : Nat) (hi : i < b.length) : flipBit b i k ≠ b := by
  intro h
  have h1 : (flipBit b i k)[i]? = b[i]? := by rw [h]
  unfold flipBit at h1
  rw [List.getElem?_modify_eq, List.getElem?_eq_getElem hi] at h1
  simp only [Option.map_eq_map, Option.map_some', Option.some.injEq] at h1
  have h2 : (b[i] ^^^ 2 ^ k) ^^^ b[i] = b[i] ^^^ b[i] := by rw [h1]
  rw [Nat.xor_comm, ← Nat.xor_assoc, Nat.xor_self, Nat.zero_xor] at h2
  exact absurd h2 (by positivity)

/-- With a valid request and a known user, `auth` does not accept unless the
credential check passes. -/
theorem auth_not_accepts_of_not_credentialOk (cfg : Config) (c : Codec) (m : Backend DB Txn)
    (db : DB) (req : Packet) (limits : Limits) (hv : c.ValidateAuthRequest req = "")
    (ha : m.Auth db (req.value AttributeType.UserName) = Except.ok limits)
    (hpass : limits.Pass ≠ []) (hcred : ¬ credentialOk c req limits.Pass) :
    (auth cfg c m db req).accepts = false := by
  unfold credentialOk at hcred
  by_cases hp : req.has AttributeType.UserPassword = true
  · rw [if_pos hp] at hcred
    simp [auth, hv, ha, hpass, hp, hcred, Run.accepts, Run.writes, Event.written]
  · rw [if_neg hp] at hcred
    by_cases hch : req.has AttributeType.CHAPPassword = true
    · by_cases hraw : req.value AttributeType.CHAPPassword = []
      · simp [auth, hv, ha, hpass, hp, hch, hraw, Run.accepts, Run.writes, Event.written]
      · have hhash : (req.value AttributeType.CHAPPassword).drop 1
            ≠ c.md5 ((req.value AttributeType.CHAPPassword).take 1 ++ limits.Pass
                ++ req.value AttributeType.CHAPChallenge) :=
          fun h => hcred ⟨hch, hraw, h⟩
        simp only [List.drop_one, List.append_assoc] at hhash
        cases hverb : cfg.Verbose <;>
          simp [auth, hv, ha, hpass, hp, hch, hraw, hhash, Run.accepts, Run.writes,
            Event.written, verboseLog, hverb]
    · simp [auth, hv, ha, hpass, hp, hch, Run.accepts, Run.writes, Event.written]

/-- The complete condition under which `auth` writes an Access-Accept. -/
theorem auth_accepts_iff (cfg : Config) (c : Codec) (m : Backend DB Txn) (db : DB)
    (req : Packet) :
    (auth cfg c m db req).accepts = true ↔
      c.ValidateAuthRequest req = "" ∧
      ∃ limits n, m.Auth db (req.value AttributeType.UserName) = Except.ok limits
        ∧ limits.Pass ≠ [] ∧ credentialOk c req limits.Pass
        ∧ m.Conns db (req.value AttributeType.UserName) = Except.ok n
        ∧ n < limits.SimultaneousUse ∧ limits.Ok = true
        ∧ (limits.DnsOne.isSome = true → limits.DnsTwo.isSome = true) := by
  by_cases hv : c.ValidateAuthRequest req = ""
  swap
  · simp [auth, hv, Run.accepts, Run.writes, Event.written]
  cases ha : m.Auth db (req.value AttributeType.UserName) with
  | error e => simp [auth, hv, ha, Run.accepts, Run.writes, Event.written]
  | ok limits =>
    by_cases hpass : limits.Pass = []
    · simp [auth, hv, ha, hpass, Run.accepts, Run.writes, Event.written]
    by_cases hcred : credentialOk c req limits.Pass
    · obtain ⟨pre, hw, _, hrun⟩ := auth_of_credentialOk cfg c m db req limits hv ha hpass hcred
      rw [hrun, after_accepts_iff c m db _ limits pre hw]
      constructor
      · rintro ⟨n, h1, h2, h3, h4⟩
        exact ⟨hv, limits, n, rfl, hpass, hcred, h1, h2, h3, h4⟩
      · rintro ⟨_, l, n, hl, _, _, h1, h2, h3, h4⟩
        cases hl
        exact ⟨n, h1, h2, h3, h4⟩
    · rw [auth_not_accepts_of_not_credentialOk cfg c m db req limits hv ha hpass hcred]
      constructor
      · intro h; cases h
      · rintro ⟨_, l, n, hl, _, hc, _⟩
        cases hl
        exact absurd hc hcred

theorem has_setAttr (req : Packet) (t u : AttributeType) (v : Bytes) :
    (req.setAttr t v).has u = if u = t then true else req.has u := by
  by_cases h : u = t <;> simp [Packet.setAttr, Packet.has, h]

theorem value_setAttr (req : Packet) (t u : AttributeType) (v : Bytes) :
    (req.setAttr t v).value u = if u = t then v else req.value u := by
  by_cases h : u = t <;> simp [Packet.setAttr, Packet.value, h]

theorem rejects_of_writes {r : Run DB} {reason : String}
    (h : r.writes = [Written.DefaultPacket PacketCode.AccessReject reason]) :
    r.rejects reason = true := by
  simp [Run.rejects, h]

/-- The outcome of the part of `auth` after the credential check, when the
effects before it write nothing and the DNS pair is complete. -/
theorem after_decision (c : Codec) (m : Backend DB Txn) (db : DB) (user : Bytes)
    (limits : Limits) (pre : List Event) (hpre : pre.filterMap Event.written = [])
    (hdns : limits.DnsOne.isSome = true → limits.DnsTwo.isSome = true) :
    (authAfterCredential c m db user limits pre).decision =
      match m.Conns db user with
      | Except.error _ => Decision.noResponse
      | Except.ok conns =>
        if conns ≥ limits.SimultaneousUse then Decision.reject "Max conns reached"
        else if limits.Ok = false then Decision.reject "Invalid user/pass"
        else Decision.accept := by
  cases hc : m.Conns db user with
  | error e =>
    rw [after_conns_error c m db user limits pre e hc]
    simp [Run.decision, Run.writes, hpre, Event.written]
  | ok n =>
    by_cases hn : n ≥ limits.SimultaneousUse
    · rw [after_conns_full c m db user limits pre n hc hn]
      simp [Run.decision, Run.writes, hpre, Event.written, hn]
    · have hn1 : n < limits.SimultaneousUse := not_le.mp hn
      cases hok : limits.Ok with
      | false =>
        rw [after_not_ok c m db user limits pre n hc hn1 hok]
        simp [Run.decision, Run.writes, hpre, Event.written, hn]
      | true =>
        obtain ⟨attrs, ha⟩ := after_ok c m db user limits pre n hc hn1 hok hdns
        rw [ha]
        simp [Run.decision, Run.writes, hpre, Event.written, hn]

/-! ### Run equations of the accounting handlers -/

theorem acctUpdate_invalid (cfg : Config) (c : Codec) (m : Backend DB Txn) (db : DB)
    (req : Packet) (hv : c.ValidateAcctRequest req ≠ "") :
    acctUpdate cfg c m db req = Run.mk db [Event.log "acct.update e="] false := by
  simp [acctUpdate, hv]

theorem acctUpdate_begin_error (cfg : Config) (c : Codec) (m : Backend DB Txn) (db : DB)
    (req : Packet) (e : ModelError) (hv : c.ValidateAcctRequest req = "")
    (hb : m.Begin db = Except.error e) :
    acctUpdate cfg c m db req = Run.mk db
      (verboseLog cfg
          "acct.update sess=%s for user=%s on NasIP=%s sessTime=%d octetsIn=%d octetsOut=%d"
        ++ [Event.Begin false, Event.log "acct.update e="]) false := by
  simp [acctUpdate, hv, hb]

theorem acctUpdate_update_error (cfg : Config) (c : Codec) (m : Backend DB Txn) (db : DB)
    (req : Packet) (txn : Txn) (e : ModelError) (hv : c.ValidateAcctRequest req = "")
    (hb : m.Begin db = Except.ok txn)
    (hu : m.SessionUpdate txn (createSess c req) = Except.error e) :
    acctUpdate cfg c m db req = Run.mk db
      (verboseLog cfg
          "acct.update sess=%s for user=%s on NasIP=%s sessTime=%d octetsIn=%d octetsOut=%d"
        ++ [Event.Begin true, Event.SessionUpdate (createSess c req) false,
            Event.log "acct.update e="]) false := by
  simp [acctUpdate, hv, hb, hu]

theorem acctUpdate_commit_error (cfg : Config) (c : Codec) (m : Backend DB Txn) (db : DB)
    (req : Packet) (txn txn1 : Txn) (e : ModelError) (hv : c.ValidateAcctRequest req = "")
    (hb : m.Begin db = Except.ok txn)
    (hu : m.SessionUpdate txn (createSess c req) = Except.ok txn1)
    (hcm : m.Commit db txn1 = Except.error e) :
    acctUpdate cfg c m db req = Run.mk db
      (verboseLog cfg
          "acct.update sess=%s for user=%s on NasIP=%s sessTime=%d octetsIn=%d octetsOut=%d"
        ++ [Event.Begin true, Event.SessionUpdate (createSess c req) true,
            Event.Queue (createSess c req).User (createSess c req).BytesIn
              (createSess c req).BytesOut (createSess c req).PacketsIn
              (createSess c req).PacketsOut,
            Event.Commit false, Event.log "acct.update e="]) false := by
  simp [acctUpdate, hv, hb, hu, hcm]

theorem acctUpdate_commit_ok (cfg : Config) (c : Codec) (m : Backend DB Txn) (db : DB)
    (req : Packet) (txn txn1 : Txn) (db1 : DB) (hv : c.ValidateAcctRequest req = "")
    (hb : m.Begin db = Except.ok txn)
    (hu : m.SessionUpdate txn (createSess c req) = Except.ok txn1)
    (hcm : m.Commit db txn1 = Except.ok db1) :
    acctUpdate cfg c m db req = Run.mk db1
      (verboseLog cfg
          "acct.update sess=%s for user=%s on NasIP=%s sessTime=%d octetsIn=%d octetsOut=%d"
        ++ [Event.Begin true, Event.SessionUpdate (createSess c req) true,
            Event.Queue (createSess c req).User (createSess c req).BytesIn
              (createSess c req).BytesOut (createSess c req).PacketsIn
              (createSess c req).PacketsOut,
            Event.Commit true,
            Event.write (Written.DefaultPacket PacketCode.AccountingResponse
              "Updated accounting.")]) false := by
  simp [acctUpdate, hv, hb, hu, hcm]

theorem acctStop_invalid (cfg : Config) (c : Codec) (m : Backend DB Txn) (db : DB)
    (req : Packet) (hv : c.ValidateAcctRequest req ≠ "") :
    acctStop cfg c m db req = Run.mk db [Event.log "acct.stop e="] false := by
  simp [acctStop, hv]

theorem acctStop_begin_error (cfg : Config) (c : Codec) (m : Backend DB Txn) (db : DB)
    (req : Packet) (e : ModelError) (hv : c.ValidateAcctRequest req = "")
    (hb : m.Begin db = Except.error e) :
    acctStop cfg c m db req = Run.mk db
      (verboseLog cfg "acct.stop sess=%s for user=%s sessTime=%d octetsIn=%d octetsOut=%d"
        ++ [Event.Begin false, Event.log "acct.update e="]) false := by
  simp [acctStop, hv, hb]

theorem acctStop_update_error (cfg : Config) (c : Codec) (m : Backend DB Txn) (db : DB)
    (req : Packet) (txn : Txn) (e : ModelError) (hv : c.ValidateAcctRequest req = "")
    (hb : m.Begin db = Except.ok txn)
    (hu : m.SessionUpdate txn (createSess c req) = Except.error e) :
    acctStop cfg c m db req = Run.mk db
      (verboseLog cfg "acct.stop sess=%s for user=%s sessTime=%d octetsIn=%d octetsOut=%d"
        ++ [Event.Begin true, Event.SessionUpdate (createSess c req) false,
            Event.log "acct.update e="]) false := by
  simp [acctStop, hv, hb, hu]

theorem acctStop_log_error (cfg : Config) (c : Codec) (m : Backend DB Txn) (db : DB)
    (req : Packet) (txn txn1 : Txn) (e : ModelError) (hv : c.ValidateAcctRequest req = "")
    (hb : m.Begin db = Except.ok txn)
    (hu : m.SessionUpdate txn (createSess c req) = Except.ok txn1)
    (hl : m.SessionLog txn1 (req.value AttributeType.AcctSessionId)
      (req.value AttributeType.UserName)
      (c.DecodeIP (req.value AttributeType.NASIPAddress)) = Except.error e) :
    acctStop cfg c m db req = Run.mk db
      (verboseLog cfg "acct.stop sess=%s for user=%s sessTime=%d octetsIn=%d octetsOut=%d"
        ++ [Event.Begin true, Event.SessionUpdate (createSess c req) true,
            Event.SessionLog (req.value AttributeType.AcctSessionId)
              (req.value AttributeType.UserName)
              (c.DecodeIP (req.value AttributeType.NASIPAddress)) false,
            Event.log "acct.update e="]) false := by
  simp [acctStop, hv, hb, hu, hl]

theorem acctStop_remove_error (cfg : Config) (c : Codec) (m : Backend DB Txn) (db : DB)
    (req : Packet) (txn txn1 txn2 : Txn) (e : ModelError)
    (hv : c.ValidateAcctRequest req = "")
    (hb : m.Begin db = Except.ok txn)
    (hu : m.SessionUpdate txn (createSess c req) = Except.ok txn1)
    (hl : m.SessionLog txn1 (req.value AttributeType.AcctSessionId)
      (req.value AttributeType.UserName)
      (c.DecodeIP (req.value AttributeType.NASIPAddress)) = Except.ok txn2)
    (hr : m.SessionRemove txn2 (req.value AttributeType.AcctSessionId)
      (req.value AttributeType.UserName)
      (c.DecodeIP (req.value AttributeType.NASIPAddress)) = Except.error e) :
    acctStop cfg c m db req = Run.mk db
      (verboseLog cfg "acct.stop sess=%s for user=%s sessTime=%d octetsIn=%d octetsOut=%d"
        ++ [Event.Begin true, Event.SessionUpdate (createSess c req) true,
            Event.SessionLog (req.value AttributeType.AcctSessionId)
              (req.value AttributeType.UserName)
              (c.DecodeIP (req.value AttributeType.NASIPAddress)) true,
            Event.SessionRemove (req.value AttributeType.AcctSessionId)
              (req.value AttributeType.UserName)
              (c.DecodeIP (req.value AttributeType.NASIPAddress)) false,
            Event.log "acct.update e="]) false := by
  simp [acctStop, hv, hb, hu, hl, hr]

theorem acctStop_commit_error (cfg : Config) (c : Codec) (m : Backend DB Txn) (db : DB)
    (req : Packet) (txn txn1 txn2 txn3 : Txn) (e : ModelError)
    (hv : c.ValidateAcctRequest req = "")
    (hb : m.Begin db = Except.ok txn)
    (hu : m.SessionUpdate txn (createSess c req) = Except.ok txn1)
    (hl : m.SessionLog txn1 (req.value AttributeType.AcctSessionId)
      (req.value AttributeType.UserName)
      (c.DecodeIP (req.value AttributeType.NASIPAddress)) = Except.ok txn2)
    (hr : m.SessionRemove txn2 (req.value AttributeType.AcctSessionId)
      (req.value AttributeType.UserName)
      (c.DecodeIP (req.value AttributeType.NASIPAddress)) = Except.ok txn3)
    (hcm : m.Commit db txn3 = Except.error e) :
    acctStop cfg c m db req = Run.mk db
      (verboseLog cfg "acct.stop sess=%s for user=%s sessTime=%d octetsIn=%d octetsOut=%d"
        ++ [Event.Begin true, Event.SessionUpdate (createSess c req) true,
            Event.SessionLog (req.value AttributeType.AcctSessionId)
              (req.value AttributeType.UserName)
              (c.DecodeIP (req.value AttributeType.NASIPAddress)) true,
            Event.SessionRemove (req.value AttributeType.AcctSessionId)
              (req.value AttributeType.UserName)
              (c.DecodeIP (req.value AttributeType.NASIPAddress)) true,
            Event.Queue (req.value AttributeType.UserName)
              (c.DecodeFour (req.value AttributeType.AcctInputOctets))
              (c.DecodeFour (req.value AttributeType.AcctOutputOctets))
              (c.DecodeFour (req.value AttributeType.AcctInputPackets))
              (c.DecodeFour (req.value AttributeType.AcctOutputPackets)),
            Event.Commit false, Event.log "acct.update e="]) false := by
  simp [acctStop, hv, hb, hu, hl, hr, hcm]

theorem acctStop_commit_ok (cfg : Config) (c : Codec) (m : Backend DB Txn) (db : DB)
    (req : Packet) (txn txn1 txn2 txn3 : Txn) (db1 : DB)
    (hv : c.ValidateAcctRequest req = "")
    (hb : m.Begin db = Except.ok txn)
    (hu : m.SessionUpdate txn (createSess c req) = Except.ok txn1)
    (hl : m.SessionLog txn1 (req.value AttributeType.AcctSessionId)
      (req.value AttributeType.UserName)
      (c.DecodeIP (req.value AttributeType.NASIPAddress)) = Except.ok txn2)
    (hr : m.SessionRemove txn2 (req.value AttributeType.AcctSessionId)
      (req.value AttributeType.UserName)
      (c.DecodeIP (req.value AttributeType.NASIPAddress)) = Except.ok txn3)
    (hcm : m.Commit db txn3 = Except.ok db1) :
    acctStop cfg c m db req = Run.mk db1
      (verboseLog cfg "acct.stop sess=%s for user=%s sessTime=%d octetsIn=%d octetsOut=%d"
        ++ [Event.Begin true, Event.SessionUpdate (createSess c req) true,
            Event.SessionLog (req.value AttributeType.AcctSessionId)
              (req.value AttributeType.UserName)
              (c.DecodeIP (req.value AttributeType.NASIPAddress)) true,
            Event.SessionRemove (req.value AttributeType.AcctSessionId)
              (req.value AttributeType.UserName)
              (c.DecodeIP (req.value AttributeType.NASIPAddress)) true,
            Event.Queue (req.value AttributeType.UserName)
              (c.DecodeFour (req.value AttributeType.AcctInputOctets))
              (c.DecodeFour (req.value AttributeType.AcctOutputOctets))
              (c.DecodeFour (req.value AttributeType.AcctInputPackets))
              (c.DecodeFour (req.value AttributeType.AcctOutputPackets)),
            Event.Commit true,
            Event.write (Written.DefaultPacket PacketCode.AccountingResponse
              "Finished accounting.")]) false := by
  simp [acctStop, hv, hb, hu, hl, hr, hcm]

/-! ### Run equations of `acctBegin` -/

theorem acctBegin_invalid (cfg : Config) (c : Codec) (m : Backend DB Txn) (db : DB)
    (req : Packet) (hv : c.ValidateAcctRequest req ≠ "") :
    acctBegin cfg c m db req = Run.mk db [Event.log "WARN: acct.begin err="] false := by
  simp [acctBegin, hv]

theorem acctBegin_no_framed (cfg : Config) (c : Codec) (m : Backend DB Txn) (db : DB)
    (req : Packet) (hv : c.ValidateAcctRequest req = "")
    (hf : req.has AttributeType.FramedIPAddress = false) :
    acctBegin cfg c m db req
      = Run.mk db [Event.log "WARN: acct.begin missing FramedIPAddress"] false := by
  simp [acctBegin, hv, hf]

theorem acctBegin_limits_error (cfg : Config) (c : Codec) (m : Backend DB Txn) (db : DB)
    (req : Packet) (e : ModelError) (hv : c.ValidateAcctRequest req = "")
    (hf : req.has AttributeType.FramedIPAddress = true)
    (hl : m.Limits db (req.value AttributeType.UserName) = Except.error e) :
    acctBegin cfg c m db req = Run.mk db
      (verboseLog cfg "acct.begin sess=%s for user=%s on nasIP=%s"
        ++ [Event.Limits (req.value AttributeType.UserName),
            Event.log (if e = ModelError.ErrNoRows then "acct.begin received invalid user="
              else "acct.begin e=")]) false := by
  by_cases he : e = ModelError.ErrNoRows <;> simp [acctBegin, hv, hf, hl, he]

theorem acctBegin_add_error (cfg : Config) (c : Codec) (m : Backend DB Txn) (db : DB)
    (req : Packet) (l : Limits) (e : ModelError) (hv : c.ValidateAcctRequest req = "")
    (hf : req.has AttributeType.FramedIPAddress = true)
    (hl : m.Limits db (req.value AttributeType.UserName) = Except.ok l)
    (ha : m.SessionAdd db (req.value AttributeType.AcctSessionId)
      (req.value AttributeType.UserName)
      (c.DecodeIP (req.value AttributeType.NASIPAddress))
      (c.DecodeIP (req.value AttributeType.FramedIPAddress))
      (req.value AttributeType.CallingStationId) = Except.error e) :
    acctBegin cfg c m db req = Run.mk db
      (verboseLog cfg "acct.begin sess=%s for user=%s on nasIP=%s"
        ++ [Event.Limits (req.value AttributeType.UserName),
            Event.SessionAdd (req.value AttributeType.AcctSessionId)
              (req.value AttributeType.UserName)
              (c.DecodeIP (req.value AttributeType.NASIPAddress))
              (c.DecodeIP (req.value AttributeType.FramedIPAddress))
              (req.value AttributeType.CallingStationId) false,
            Event.log "acct.begin e=%s"]) false := by
  simp [acctBegin, hv, hf, hl, ha]

theorem acctBegin_add_ok (cfg : Config) (c : Codec) (m : Backend DB Txn) (db : DB)
    (req : Packet) (l : Limits) (db1 : DB) (hv : c.ValidateAcctRequest req = "")
    (hf : req.has AttributeType.FramedIPAddress = true)
    (hl : m.Limits db (req.value AttributeType.UserName) = Except.ok l)
    (ha : m.SessionAdd db (req.value AttributeType.AcctSessionId)
      (req.value AttributeType.UserName)
      (c.DecodeIP (req.value AttributeType.NASIPAddress))
      (c.DecodeIP (req.value AttributeType.FramedIPAddress))
      (req.value AttributeType.CallingStationId) = Except.ok db1) :
    acctBegin cfg c m db req = Run.mk db1
      (verboseLog cfg "acct.begin sess=%s for user=%s on nasIP=%s"
        ++ [Event.Limits (req.value AttributeType.UserName),
            Event.SessionAdd (req.value AttributeType.AcctSessionId)
              (req.value AttributeType.UserName)
              (c.DecodeIP (req.value AttributeType.NASIPAddress))
              (c.DecodeIP (req.value AttributeType.FramedIPAddress))
              (req.value AttributeType.CallingStationId) true,
            Event.write (Written.Response PacketCode.AccountingResponse [])]) false := by
  simp [acctBegin, hv, hf, hl, ha]

/-- The part of `auth` after the credential check, when it accepts: the reply
attributes are those of `referenceReply`. -/
theorem after_ok_reply (c : Codec) (m : Backend DB Txn) (db : DB) (user : Bytes)
    (limits : Limits) (pre : List Event) (n : Int)
    (hc : m.Conns db user = Except.ok n) (hn : n < limits.SimultaneousUse)
    (hok : limits.Ok = true) (hdns : limits.DnsOne.isSome = true → limits.DnsTwo.isSome = true) :
    authAfterCredential c m db user limits pre
      = Run.mk db (pre ++ [Event.Conns user,
          Event.write (Written.Response PacketCode.AccessAccept (referenceReply c limits))])
          false := by
  have hn2 : ¬ n ≥ limits.SimultaneousUse := not_le.mpr hn
  cases h1 : limits.DnsOne with
  | none =>
    cases hd : limits.DedicatedIP <;> cases hr : limits.Ratelimit <;>
      simp [authAfterCredential, replyHead, referenceReply, hc, hn2, hok, h1, hd, hr]
  | some d1 =>
    cases h2 : limits.DnsTwo with
    | none => simp [h1, h2] at hdns
    | some d2 =>
      cases hd : limits.DedicatedIP <;> cases hr : limits.Ratelimit <;>
        simp [authAfterCredential, replyHead, referenceReply, hc, hn2, hok, h1, h2, hd, hr]

/-- The part of `auth` after the credential check panics exactly when it
reaches the accept branch with `DnsOne` set and `DnsTwo` missing. -/
theorem after_panicked_iff (c : Codec) (m : Backend DB Txn) (db : DB) (user : Bytes)
    (limits : Limits) (pre : List Event) :
    (authAfterCredential c m db user limits pre).panicked = true ↔
      ∃ n, m.Conns db user = Except.ok n ∧ n < limits.SimultaneousUse ∧ limits.Ok = true
        ∧ limits.DnsOne.isSome = true ∧ limits.DnsTwo = none := by
  cases hc : m.Conns db user with
  | error e => simp [after_conns_error c m db user limits pre e hc]
  | ok n =>
    by_cases hn : n ≥ limits.SimultaneousUse
    · simp [after_conns_full c m db user limits pre n hc hn, not_lt.mpr hn]
    · have hn1 : n < limits.SimultaneousUse := not_le.mp hn
      cases hok : limits.Ok with
      | false => simp [after_not_ok c m db user limits pre n hc hn1 hok]
      | true =>
        by_cases hdns : limits.DnsOne.isSome = true → limits.DnsTwo.isSome = true
        · rw [after_ok_reply c m db user limits pre n hc hn1 hok hdns]
          simp only [Bool.false_eq_true, false_iff]
          rintro ⟨_, _, _, _, h1, h2⟩
          simp [h2] at hdns
          simp [hdns] at h1
        · have h1 : limits.DnsOne.isSome = true := by
            by_contra h; exact hdns (fun h1 => absurd h1 h)
          have h2 : limits.DnsTwo = none := by
            cases h : limits.DnsTwo with
            | none => rfl
            | some d => exact absurd (fun _ => by simp [h]) hdns
          rw [after_dns_panic c m db user limits pre n hc hn1 hok h1 h2]
          simp only [true_iff]
          exact ⟨n, rfl, hn1, trivial, h1, h2⟩

/-- The two run-time panics of `auth`: a present `CHAPPassword` of length zero
on the CHAP branch, and `DnsOne` set with `DnsTwo` missing on the accept
branch.  There is no other. -/
theorem auth_panicked_iff (cfg : Config) (c : Codec) (m : Backend DB Txn) (db : DB)
    (req : Packet) :
    (auth cfg c m db req).panicked = true ↔
      c.ValidateAuthRequest req = "" ∧
      ∃ limits, m.Auth db (req.value AttributeType.UserName) = Except.ok limits
        ∧ limits.Pass ≠ []
        ∧ ((req.has AttributeType.UserPassword = false
              ∧ req.has AttributeType.CHAPPassword = true
              ∧ req.value AttributeType.CHAPPassword = [])
          ∨ (credentialOk c req limits.Pass
              ∧ ∃ n, m.Conns db (req.value AttributeType.UserName) = Except.ok n
                ∧ n < limits.SimultaneousUse ∧ limits.Ok = true
                ∧ limits.DnsOne.isSome = true ∧ limits.DnsTwo = none)) := by
  by_cases hv : c.ValidateAuthRequest req = ""
  swap
  · simp [auth, hv]
  cases ha : m.Auth db (req.value AttributeType.UserName) with
  | error e => simp [auth, hv, ha]
  | ok limits =>
    by_cases hpass : limits.Pass = []
    · simp [auth, hv, ha, hpass]
    by_cases hcred : credentialOk c req limits.Pass
    · obtain ⟨pre, _, _, hrun⟩ := auth_of_credentialOk cfg c m db req limits hv ha hpass hcred
      rw [hrun, after_panicked_iff]
      have hne : ¬ (req.has AttributeType.UserPassword = false
          ∧ req.has AttributeType.CHAPPassword = true
          ∧ req.value AttributeType.CHAPPassword = []) := by
        rintro ⟨h1, _, h3⟩
        unfold credentialOk at hcred
        simp [h1] at hcred
        exact hcred.2.1 h3
      constructor
      · rintro ⟨n, h⟩
        exact ⟨hv, limits, rfl, hpass, Or.inr ⟨hcred, n, h⟩⟩
      · rintro ⟨_, l, hl, _, h⟩
        cases hl
        rcases h with h | ⟨_, h⟩
        · exact absurd h hne
        · exact h
    · have hright : ¬ (credentialOk c req limits.Pass
          ∧ ∃ n, m.Conns db (req.value AttributeType.UserName) = Except.ok n
            ∧ n < limits.SimultaneousUse ∧ limits.Ok = true
            ∧ limits.DnsOne.isSome = true ∧ limits.DnsTwo = none) := fun h => hcred h.1
      by_cases hp : req.has AttributeType.UserPassword = true
      · have hne : c.DecryptPassword (req.value AttributeType.UserPassword) req
            ≠ limits.Pass := by
          intro h
          apply hcred
          unfold credentialOk
          rw [if_pos hp]
          exact h
        simp [auth, hv, ha, hpass, hp, hne, hcred]
      · by_cases hch : req.has AttributeType.CHAPPassword = true
        · by_cases hraw : req.value AttributeType.CHAPPassword = []
          · simp [auth, hv, ha, hpass, hp, hch, hraw, hcred]
          · have hne : (req.value AttributeType.CHAPPassword).drop 1
                ≠ c.md5 ((req.value AttributeType.CHAPPassword).take 1 ++ limits.Pass
                    ++ req.value AttributeType.CHAPChallenge) := by
              intro h
              apply hcred
              unfold credentialOk
              rw [if_neg hp]
              exact ⟨hch, hraw, h⟩
            simp only [List.drop_one, List.append_assoc] at hne
            simp [auth, hv, ha, hpass, hp, hch, hraw, hne, hcred]
        · simp [auth, hv, ha, hpass, hp, hch, hcred]

/-- With a valid request, a known user and a passing credential check, `auth`
is the policy lookup, at most one log line, and the part after the credential
check. -/
theorem auth_of_credentialOk_trace (cfg : Config) (c : Codec) (m : Backend DB Txn) (db : DB)
    (req : Packet) (limits : Limits) (hv : c.ValidateAuthRequest req = "")
    (ha : m.Auth db (req.value AttributeType.UserName) = Except.ok limits)
    (hpass : limits.Pass ≠ []) (hcred : credentialOk c req limits.Pass) :
    ∃ fmt, auth cfg c m db req
        = authAfterCredential c m db (req.value AttributeType.UserName) limits
            ([Event.Auth (req.value AttributeType.UserName)] ++ verboseLog cfg fmt) := by
  unfold credentialOk at hcred
  by_cases hp : req.has AttributeType.UserPassword = true
  · rw [if_pos hp] at hcred
    exact ⟨"PAP login user=%s", by simp [auth, hv, ha, hpass, hp, hcred]⟩
  · rw [if_neg hp] at hcred
    obtain ⟨hch, hraw, hhash⟩ := hcred
    exact ⟨"CHAP login user=%s", by simp [auth, hv, ha, hpass, hp, hch, hraw, hhash]⟩

/-- The part of `auth` after the credential check leaves the store alone and
performs, after `pre`, the session count followed by at most one effect, which
is a log line or a write. -/
theorem after_trace (c : Codec) (m : Backend DB Txn) (db : DB) (user : Bytes)
    (limits : Limits) (pre : List Event) :
    (authAfterCredential c m db user limits pre).db = db
      ∧ ∃ tail, (authAfterCredential c m db user limits pre).trace
          = pre ++ Event.Conns user :: tail
        ∧ tail.length ≤ 1
        ∧ ∀ ev ∈ tail, ev.isLog = true ∨ ev.written.isSome = true := by
  cases hc : m.Conns db user with
  | error e =>
    rw [after_conns_error c m db user limits pre e hc]
    exact ⟨rfl, [Event.log "auth.begin e="], rfl, by simp, by simp [Event.isLog]⟩
  | ok n =>
    by_cases hn : n ≥ limits.SimultaneousUse
    · rw [after_conns_full c m db user limits pre n hc hn]
      exact ⟨rfl, [_], rfl, by simp, by simp [Event.written]⟩
    · have hn1 : n < limits.SimultaneousUse := not_le.mp hn
      cases hok : limits.Ok with
      | false =>
        rw [after_not_ok c m db user limits pre n hc hn1 hok]
        exact ⟨rfl, [_], rfl, by simp, by simp [Event.written]⟩
      | true =>
        by_cases hdns : limits.DnsOne.isSome = true → limits.DnsTwo.isSome = true
        · rw [after_ok_reply c m db user limits pre n hc hn1 hok hdns]
          exact ⟨rfl, [_], rfl, by simp, by simp [Event.written]⟩
        · have h1 : limits.DnsOne.isSome = true := by
            by_contra h; exact hdns (fun h1 => absurd h1 h)
          have h2 : limits.DnsTwo = none := by
            cases h : limits.DnsTwo with
            | none => rfl
            | some d => exact absurd (fun _ => by simp [h]) hdns
          rw [after_dns_panic c m db user limits pre n hc hn1 hok h1 h2]
          exact ⟨rfl, [], rfl, by simp, by simp⟩

/-- In the sample store, writing the same snapshot a second time changes
nothing. -/
theorem sampleBackend_update_twice (t t1 t2 : Store) (s : Session)
    (h1 : sampleBackend.SessionUpdate t s = Except.ok t1)
    (h2 : sampleBackend.SessionUpdate t1 s = Except.ok t2) : t2 = t1 := by
  simp only [sampleBackend, Except.ok.injEq] at h1 h2
  subst h1
  rw [← h2]
  simp only [List.map_map, Store.mk.injEq, true_and, and_true]
  apply List.map_congr_left
  intro r _
  by_cases hr : r.hasKey s.SessionID s.User s.NasIP = true
  · simp [hr]
  · simp [hr]

end Helpers

/-! ### C1: PAP -/

/-- C1, as stated, fails: `bob` sends the right PAP password `secret`, but two
of the two permitted sessions are open, and the request is not accepted. -/
theorem c1_counterexample :
    sampleCodec.ValidateAuthRequest (papRequest secret) = ""
      ∧ (papRequest secret).has AttributeType.UserPassword = true
      ∧ sampleBackend.Auth (bobStore true 2) bob = Except.ok (bobLimits true)
      ∧ ¬ ((auth quiet sampleCodec sampleBackend (bobStore true 2) (papRequest secret)).accepts
            = true
          ↔ sampleCodec.DecryptPassword
              ((papRequest secret).value AttributeType.UserPassword) (papRequest secret)
            = (bobLimits true).Pass) := by
  decide

/-- C1, as amended: for every structurally valid Access-Request carrying
`UserPassword`, `auth` writes an Access-Accept if and only if the policy
lookup succeeds with a non-empty `Pass`, the decrypted password equals `Pass`,
the session count is read and is below `SimultaneousUse`, `Ok` is set and
`DnsTwo` is present whenever `DnsOne` is. -/
theorem auth_pap_accept_iff {DB Txn : Type} (cfg : Config) (c : Codec) (m : Backend DB Txn)
    (db : DB) (req : Packet) (hv : c.ValidateAuthRequest req = "")
    (hp : req.has AttributeType.UserPassword = true) :
    (auth cfg c m db req).accepts = true ↔
      ∃ limits n, m.Auth db (req.value AttributeType.UserName) = Except.ok limits
        ∧ limits.Pass ≠ []
        ∧ c.DecryptPassword (req.value AttributeType.UserPassword) req = limits.Pass
        ∧ m.Conns db (req.value AttributeType.UserName) = Except.ok n
        ∧ n < limits.SimultaneousUse ∧ limits.Ok = true
        ∧ (limits.DnsOne.isSome = true → limits.DnsTwo.isSome = true) := by
  rw [auth_accepts_iff]
  simp only [credentialOk, hp, if_true, hv, true_and]

/-- The amended C1 at the PAP request of `bob` with no session open. -/
theorem auth_pap_accept_iff_witness :
    (auth quiet sampleCodec sampleBackend (bobStore true 0) (papRequest secret)).accepts = true
      ∧ ((auth quiet sampleCodec sampleBackend (bobStore true 0) (papRequest secret)).accepts
            = true ↔
          ∃ limits n, sampleBackend.Auth (bobStore true 0)
              ((papRequest secret).value AttributeType.UserName) = Except.ok limits
            ∧ limits.Pass ≠ []
            ∧ sampleCodec.DecryptPassword
                ((papRequest secret).value AttributeType.UserPassword) (papRequest secret)
              = limits.Pass
            ∧ sampleBackend.Conns (bobStore true 0)
                ((papRequest secret).value AttributeType.UserName) = Except.ok n
            ∧ n < limits.SimultaneousUse ∧ limits.Ok = true
            ∧ (limits.DnsOne.isSome = true → limits.DnsTwo.isSome = true)) :=
  ⟨by decide,
   auth_pap_accept_iff quiet sampleCodec sampleBackend (bobStore true 0) (papRequest secret)
     (by decide) (by decide)⟩

/-! ### CHAP requests (C2) -/

/-- With the digest of `crypto/md5`: `bob` sends the CHAP response whose hash
is the MD5 digest of identifier, secret and challenge; with no session open
the request is accepted, but with two of the two permitted sessions open it is
rejected with `Max conns reached` although the digest still equals the
received hash. -/
theorem chap_digest_match_not_accepted :
    md5 (7 :: secret ++ [1, 2, 3]) = bobDigest
      ∧ digestCodec.ValidateAuthRequest (chapRequest bobDigest) = ""
      ∧ (chapRequest bobDigest).has AttributeType.UserPassword = false
      ∧ (chapRequest bobDigest).has AttributeType.CHAPPassword = true
      ∧ (chapRequest bobDigest).has AttributeType.CHAPChallenge = true
      ∧ sampleBackend.Auth (bobStore true 2) bob = Except.ok (bobLimits true)
      ∧ digestCodec.md5
          (((chapRequest bobDigest).value AttributeType.CHAPPassword).take 1
            ++ (bobLimits true).Pass
            ++ (chapRequest bobDigest).value AttributeType.CHAPChallenge)
        = ((chapRequest bobDigest).value AttributeType.CHAPPassword).drop 1
      ∧ (auth quiet digestCodec sampleBackend (bobStore true 0) (chapRequest bobDigest)).accepts
        = true
      ∧ (auth quiet digestCodec sampleBackend (bobStore true 2) (chapRequest bobDigest)).accepts
        = false
      ∧ (auth quiet digestCodec sampleBackend (bobStore true 2) (chapRequest bobDigest)).writes
        = [Written.DefaultPacket PacketCode.AccessReject "Max conns reached"] := by
  decide

/-- For every structurally valid Access-Request carrying `CHAPPassword` and
`CHAPChallenge` and no `UserPassword`, and for every digest function, `auth`
writes an Access-Accept if and only if the policy lookup succeeds with a
non-empty `Pass`, the `CHAPPassword` value is not empty, the digest of its
first byte, `Pass` and the challenge equals its remaining bytes, the session
count is read and is below `SimultaneousUse`, `Ok` is set and `DnsTwo` is
present whenever `DnsOne` is. -/
theorem auth_chap_accept_iff {DB Txn : Type} (cfg : Config) (c : Codec) (m : Backend DB Txn)
    (db : DB) (req : Packet) (hv : c.ValidateAuthRequest req = "")
    (hp : req.has AttributeType.UserPassword = false)
    (hcp : req.has AttributeType.CHAPPassword = true)
    (_hcc : req.has AttributeType.CHAPChallenge = true) :
    (auth cfg c m db req).accepts = true ↔
      ∃ limits n, m.Auth db (req.value AttributeType.UserName) = Except.ok limits
        ∧ limits.Pass ≠ []
        ∧ req.value AttributeType.CHAPPassword ≠ []
        ∧ c.md5 ((req.value AttributeType.CHAPPassword).take 1 ++ limits.Pass
            ++ req.value AttributeType.CHAPChallenge)
          = (req.value AttributeType.CHAPPassword).drop 1
        ∧ m.Conns db (req.value AttributeType.UserName) = Except.ok n
        ∧ n < limits.SimultaneousUse ∧ limits.Ok = true
        ∧ (limits.DnsOne.isSome = true → limits.DnsTwo.isSome = true) := by
  have hp2 : ¬ req.has AttributeType.UserPassword = true := by simp [hp]
  rw [auth_accepts_iff]
  simp only [credentialOk, hp2, if_false, hv, true_and, hcp]
  constructor
  · rintro ⟨l, n, h1, h2, ⟨h3, h4⟩, h5⟩
    exact ⟨l, n, h1, h2, h3, h4.symm, h5⟩
  · rintro ⟨l, n, h1, h2, h3, h4, h5⟩
    exact ⟨l, n, h1, h2, ⟨h3, h4.symm⟩, h5⟩

/-- For every accepted CHAP request and every digest function, inverting one
bit of the received hash gives the reject `Invalid password`, provided the
changed request still passes the validator. -/
theorem auth_chap_hash_bit_flip {DB Txn : Type} (cfg : Config) (c : Codec)
    (m : Backend DB Txn) (db : DB) (req : Packet)
    (hp : req.has AttributeType.UserPassword = false)
    (hacc : (auth cfg c m db req).accepts = true) (i k : Nat)
    (hi : i < ((req.value AttributeType.CHAPPassword).drop 1).length)
    (hv2 : c.ValidateAuthRequest (req.setAttr AttributeType.CHAPPassword
      ((req.value AttributeType.CHAPPassword).take 1
        ++ flipBit ((req.value AttributeType.CHAPPassword).drop 1) i k)) = "") :
    (auth cfg c m db (req.setAttr AttributeType.CHAPPassword
      ((req.value AttributeType.CHAPPassword).take 1
        ++ flipBit ((req.value AttributeType.CHAPPassword).drop 1) i k))).rejects
      "Invalid password" = true := by
  have hp2 : ¬ req.has AttributeType.UserPassword = true := by simp [hp]
  rw [auth_accepts_iff] at hacc
  obtain ⟨_, limits, n, ha, hpass, hcred, _⟩ := hacc
  simp only [credentialOk, hp2, if_false] at hcred
  obtain ⟨_, hraw, hhash⟩ := hcred
  obtain ⟨a, rest, hval⟩ := List.exists_cons_of_ne_nil hraw
  refine rejects_of_writes (auth_of_credentialMismatch cfg c m db _ limits hv2 ?_ hpass ?_).1
  · simpa [value_setAttr] using ha
  · have hne := flipBit_ne _ i k hi
    simp only [credentialMismatch, has_setAttr, value_setAttr]
    simp [hp, hval] at hne hhash ⊢
    rw [← hhash]
    exact hne

/-- With the digest of `crypto/md5`, at the accepted CHAP request of `bob`:
inverting one bit of the received hash, one bit of the challenge, or one bit
of the stored secret gives the reject `Invalid password`. -/
theorem chap_digest_bit_flips :
    (auth quiet digestCodec sampleBackend (bobStore true 0) (chapRequest bobDigest)).accepts
        = true
      ∧ (auth quiet digestCodec sampleBackend (bobStore true 0)
          ((chapRequest bobDigest).setAttr AttributeType.CHAPPassword
            (7 :: flipBit bobDigest 0 0))).rejects "Invalid password" = true
      ∧ (auth quiet digestCodec sampleBackend (bobStore true 0)
          ((chapRequest bobDigest).setAttr AttributeType.CHAPChallenge
            (flipBit [1, 2, 3] 2 5))).rejects "Invalid password" = true
      ∧ (auth quiet digestCodec sampleBackend
          (Store.mk [(bob, Limits.mk (flipBit secret 1 3) true 2 none none none none)] [] [])
          (chapRequest bobDigest)).rejects "Invalid password" = true := by
  decide

/-! ### C3: concurrency limit -/

/-- C3, as stated, fails: `bob` sends the wrong PAP password `wrong` while two
of the two permitted sessions are open; the reject carries `Invalid password`,
not `Max conns reached`, and the session count is not even read. -/
theorem c3_counterexample :
    sampleCodec.ValidateAuthRequest (papRequest [119, 114, 111, 110, 103]) = ""
      ∧ sampleBackend.Auth (bobStore true 2) bob = Except.ok (bobLimits true)
      ∧ sampleBackend.Conns (bobStore true 2) bob = Except.ok 2
      ∧ (2 : Int) ≥ (bobLimits true).SimultaneousUse
      ∧ (auth quiet sampleCodec sampleBackend (bobStore true 2)
          (papRequest [119, 114, 111, 110, 103])).rejects "Max conns reached" = false
      ∧ (auth quiet sampleCodec sampleBackend (bobStore true 2)
          (papRequest [119, 114, 111, 110, 103])).trace
          = [Event.Auth bob,
             Event.write (Written.DefaultPacket PacketCode.AccessReject "Invalid password")] := by
  decide

/-- C3, as amended: for every structurally valid Access-Request whose policy
lookup succeeds with a non-empty `Pass` and whose credential check passes, if
the session count returned by `model.Conns` is at least `SimultaneousUse`,
`auth` writes exactly one packet, the Access-Reject `Max conns reached`,
whatever the `Ok` flag and the optional policy fields are. -/
theorem auth_max_conns {DB Txn : Type} (cfg : Config) (c : Codec) (m : Backend DB Txn)
    (db : DB) (req : Packet) (limits : Limits) (n : Int)
    (hv : c.ValidateAuthRequest req = "")
    (ha : m.Auth db (req.value AttributeType.UserName) = Except.ok limits)
    (hpass : limits.Pass ≠ []) (hcred : credentialOk c req limits.Pass)
    (hc : m.Conns db (req.value AttributeType.UserName) = Except.ok n)
    (hn : n ≥ limits.SimultaneousUse) :
    (auth cfg c m db req).writes
        = [Written.DefaultPacket PacketCode.AccessReject "Max conns reached"]
      ∧ (auth cfg c m db req).panicked = false := by
  obtain ⟨pre, hw, _, hrun⟩ := auth_of_credentialOk cfg c m db req limits hv ha hpass hcred
  rw [hrun, after_conns_full c m db _ limits pre n hc hn]
  simp [Run.writes, hw, Event.written]

/-- The amended C3 at the PAP request of `bob` with the right password and two
of two sessions open. -/
theorem auth_max_conns_witness :
    (auth quiet sampleCodec sampleBackend (bobStore true 2) (papRequest secret)).writes
        = [Written.DefaultPacket PacketCode.AccessReject "Max conns reached"]
      ∧ (auth quiet sampleCodec sampleBackend (bobStore true 2) (papRequest secret)).panicked
        = false :=
  auth_max_conns quiet sampleCodec sampleBackend (bobStore true 2) (papRequest secret)
    (bobLimits true) 2 (by decide) (by decide) (by decide) (by decide) (by decide) (by decide)

/-! ### C4: authorization flag -/

/-- C4, as stated, fails: `bob` is disabled (`Ok` is false) and sends the right
PAP password, but two of the two permitted sessions are open, and the reject
carries `Max conns reached`, not `Invalid user/pass`. -/
theorem c4_counterexample :
    sampleCodec.ValidateAuthRequest (papRequest secret) = ""
      ∧ sampleBackend.Auth (bobStore false 2) bob = Except.ok (bobLimits false)
      ∧ (bobLimits false).Ok = false
      ∧ sampleCodec.DecryptPassword
          ((papRequest secret).value AttributeType.UserPassword) (papRequest secret)
        = (bobLimits false).Pass
      ∧ (auth quiet sampleCodec sampleBackend (bobStore false 2)
          (papRequest secret)).rejects "Invalid user/pass" = false
      ∧ (auth quiet sampleCodec sampleBackend (bobStore false 2) (papRequest secret)).writes
        = [Written.DefaultPacket PacketCode.AccessReject "Max conns reached"] := by
  decide

/-- C4, as amended: for every structurally valid Access-Request whose policy
has `Ok` false, `auth` never accepts; and when `Pass` is not empty, the
credential check passes and the session count is read and is below
`SimultaneousUse`, it writes exactly one packet, the Access-Reject
`Invalid user/pass`. -/
theorem auth_not_ok {DB Txn : Type} (cfg : Config) (c : Codec) (m : Backend DB Txn)
    (db : DB) (req : Packet) (limits : Limits)
    (hv : c.ValidateAuthRequest req = "")
    (ha : m.Auth db (req.value AttributeType.UserName) = Except.ok limits)
    (hok : limits.Ok = false) :
    (auth cfg c m db req).accepts = false
      ∧ (limits.Pass ≠ [] → credentialOk c req limits.Pass →
          ∀ n, m.Conns db (req.value AttributeType.UserName) = Except.ok n →
            n < limits.SimultaneousUse →
            (auth cfg c m db req).writes
              = [Written.DefaultPacket PacketCode.AccessReject "Invalid user/pass"]) := by
  constructor
  · cases hacc : (auth cfg c m db req).accepts with
    | false => rfl
    | true =>
      rw [auth_accepts_iff] at hacc
      obtain ⟨_, l, n, hl, _, _, _, _, hlok, _⟩ := hacc
      rw [ha] at hl
      cases hl
      rw [hok] at hlok
      cases hlok
  · intro hpass hcred n hc hn
    obtain ⟨pre, hw, _, hrun⟩ := auth_of_credentialOk cfg c m db req limits hv ha hpass hcred
    rw [hrun, after_not_ok c m db _ limits pre n hc hn hok]
    simp [Run.writes, hw, Event.written]

/-- The amended C4 at the PAP request of the disabled `bob` with the right
password and no session open. -/
theorem auth_not_ok_witness :
    (auth quiet sampleCodec sampleBackend (bobStore false 0) (papRequest secret)).accepts = false
      ∧ (auth quiet sampleCodec sampleBackend (bobStore false 0) (papRequest secret)).writes
        = [Written.DefaultPacket PacketCode.AccessReject "Invalid user/pass"] :=
  have h := auth_not_ok quiet sampleCodec sampleBackend (bobStore false 0) (papRequest secret)
    (bobLimits false) (by decide) (by decide) (by decide)
  ⟨h.1, h.2 (by decide) (by decide) 0 (by decide) (by decide)⟩

/-! ### C5: the reference decision -/

/-- C5: the outcome of `auth` equals the reference decision taken in strict
order (validator diagnostic, lookup error, empty `Pass`, credential mismatch,
no credential, count error, count at or over the limit, `Ok` false, accept),
for every request and every collaborator result, provided `DnsTwo` is present
whenever `DnsOne` is and a present `CHAPPassword` value is not empty. -/
theorem auth_refines_reference {DB Txn : Type} (cfg : Config) (c : Codec)
    (m : Backend DB Txn) (db : DB) (req : Packet)
    (hdns : ∀ limits, m.Auth db (req.value AttributeType.UserName) = Except.ok limits →
      limits.DnsOne.isSome = true → limits.DnsTwo.isSome = true)
    (hchap : ∀ v, req.Attrs AttributeType.CHAPPassword = some v → v ≠ []) :
    (auth cfg c m db req).decision = referenceDecision c m db req := by
  by_cases hv : c.ValidateAuthRequest req = ""
  swap
  · simp [auth, referenceDecision, hv, Run.decision, Run.writes, Event.written]
  cases ha : m.Auth db (req.value AttributeType.UserName) with
  | error e =>
    simp [auth, referenceDecision, hv, ha, Run.decision, Run.writes, Event.written]
  | ok limits =>
    by_cases hpass : limits.Pass = []
    · simp [auth, referenceDecision, hv, ha, hpass, Run.decision, Run.writes, Event.written]
    by_cases hcred : credentialOk c req limits.Pass
    · obtain ⟨pre, hw, _, hrun⟩ := auth_of_credentialOk cfg c m db req limits hv ha hpass hcred
      rw [hrun, after_decision c m db _ limits pre hw (hdns limits ha)]
      have hmis : referenceMismatch c req limits.Pass = false := by
        unfold credentialOk at hcred
        unfold referenceMismatch
        by_cases hp : req.has AttributeType.UserPassword = true
        · rw [if_pos hp] at hcred
          simp [hp, hcred]
        · rw [if_neg hp] at hcred
          simp [hp, hcred.1, hcred.2.2]
      have hsome : ¬ (req.has AttributeType.UserPassword = false
          ∧ req.has AttributeType.CHAPPassword = false) := by
        unfold credentialOk at hcred
        by_cases hp : req.has AttributeType.UserPassword = true
        · simp [hp]
        · rw [if_neg hp] at hcred
          simp [hcred.1]
      simp only [referenceDecision, hv, ha, hpass, hmis, hsome, if_false, ne_eq,
        not_true_eq_false, Bool.false_eq_true]
    · by_cases hp : req.has AttributeType.UserPassword = true
      · have hmm : credentialMismatch c req limits.Pass := by
          unfold credentialOk at hcred
          unfold credentialMismatch
          rw [if_pos hp] at hcred ⊢
          exact hcred
        obtain ⟨hw, _, hnp⟩ := auth_of_credentialMismatch cfg c m db req limits hv ha hpass hmm
        have hne : c.DecryptPassword (req.value AttributeType.UserPassword) req ≠ limits.Pass := by
          unfold credentialMismatch at hmm
          rw [if_pos hp] at hmm
          exact hmm
        simp [referenceDecision, referenceMismatch, hv, ha, hpass, hp, hne, Run.decision,
          hw, hnp]
      · by_cases hch : req.has AttributeType.CHAPPassword = true
        · have hraw : req.value AttributeType.CHAPPassword ≠ [] := by
            obtain ⟨v, hv1⟩ := Option.isSome_iff_exists.mp hch
            have := hchap v hv1
            simpa [Packet.value, hv1] using this
          have hne : (req.value AttributeType.CHAPPassword).drop 1
              ≠ c.md5 ((req.value AttributeType.CHAPPassword).take 1 ++ limits.Pass
                  ++ req.value AttributeType.CHAPChallenge) := by
            intro h
            apply hcred
            unfold credentialOk
            rw [if_neg hp]
            exact ⟨hch, hraw, h⟩
          have hmm : credentialMismatch c req limits.Pass := by
            unfold credentialMismatch
            rw [if_neg hp]
            exact ⟨hch, hraw, hne⟩
          obtain ⟨hw, _, hnp⟩ :=
            auth_of_credentialMismatch cfg c m db req limits hv ha hpass hmm
          have hne2 := Ne.symm hne
          simp only [List.drop_one, List.append_assoc] at hne2
          simp [referenceDecision, referenceMismatch, hv, ha, hpass, hp, hch, hne2,
            Run.decision, hw, hnp]
        · simp [auth, referenceDecision, referenceMismatch, hv, ha, hpass, hp, hch,
            Run.decision, Run.writes, Event.written]

/-- C5 at two requests of `bob`: an accepted PAP request, and a CHAP request
with a wrong hash while both sessions are in use. -/
theorem auth_refines_reference_witness :
    ((auth quiet sampleCodec sampleBackend (bobStore true 0) (papRequest secret)).decision
        = referenceDecision sampleCodec sampleBackend (bobStore true 0) (papRequest secret)
      ∧ referenceDecision sampleCodec sampleBackend (bobStore true 0) (papRequest secret)
        = Decision.accept)
    ∧ ((auth quiet sampleCodec sampleBackend (bobStore true 2) (chapRequest [1])).decision
        = referenceDecision sampleCodec sampleBackend (bobStore true 2) (chapRequest [1])
      ∧ referenceDecision sampleCodec sampleBackend (bobStore true 2) (chapRequest [1])
        = Decision.reject "Invalid password") :=
  ⟨⟨auth_refines_reference quiet sampleCodec sampleBackend (bobStore true 0) (papRequest secret)
      (fun l h => by
        have h2 : bobLimits true = l := by
          have h3 : sampleBackend.Auth (bobStore true 0)
              ((papRequest secret).value AttributeType.UserName)
              = Except.ok (bobLimits true) := by decide
          rw [h3] at h
          exact Except.ok.inj h
        subst h2
        decide)
      (fun v h => by
        have h3 : (papRequest secret).Attrs AttributeType.CHAPPassword = none := by decide
        rw [h3] at h
        cases h),
    by decide⟩,
   ⟨auth_refines_reference quiet sampleCodec sampleBackend (bobStore true 2) (chapRequest [1])
      (fun l h => by
        have h2 : bobLimits true = l := by
          have h3 : sampleBackend.Auth (bobStore true 2)
              ((chapRequest [1]).value AttributeType.UserName)
              = Except.ok (bobLimits true) := by decide
          rw [h3] at h
          exact Except.ok.inj h
        subst h2
        decide)
      (fun v h => by
        have h3 : (chapRequest [1]).Attrs AttributeType.CHAPPassword = some [7, 1] := by decide
        rw [h3] at h
        cases h
        decide),
    by decide⟩⟩

/-! ### C6: unknown user -/

/-- C6: for every structurally valid Access-Request for which `model.Auth`
succeeds with an empty `Pass`, whatever credential it carries, `auth` performs
the policy lookup and then writes exactly one packet, the Access-Reject
`No such user`; it does not read the session count and does not panic. -/
theorem auth_no_such_user {DB Txn : Type} (cfg : Config) (c : Codec) (m : Backend DB Txn)
    (db : DB) (req : Packet) (limits : Limits)
    (hv : c.ValidateAuthRequest req = "")
    (ha : m.Auth db (req.value AttributeType.UserName) = Except.ok limits)
    (hpass : limits.Pass = []) :
    (auth cfg c m db req).trace
        = [Event.Auth (req.value AttributeType.UserName),
           Event.write (Written.DefaultPacket PacketCode.AccessReject "No such user")]
      ∧ (auth cfg c m db req).writes
        = [Written.DefaultPacket PacketCode.AccessReject "No such user"]
      ∧ (∀ u, Event.Conns u ∉ (auth cfg c m db req).trace)
      ∧ (auth cfg c m db req).panicked = false := by
  simp [auth, hv, ha, hpass, Run.writes, Event.written]

/-- C6 at a PAP request of `bob` against a store that has no policy for `bob`. -/
theorem auth_no_such_user_witness :
    (auth quiet sampleCodec sampleBackend (Store.mk [] [] []) (papRequest secret)).trace
        = [Event.Auth ((papRequest secret).value AttributeType.UserName),
           Event.write (Written.DefaultPacket PacketCode.AccessReject "No such user")]
      ∧ (auth quiet sampleCodec sampleBackend (Store.mk [] [] []) (papRequest secret)).writes
        = [Written.DefaultPacket PacketCode.AccessReject "No such user"]
      ∧ (∀ u, Event.Conns u ∉
          (auth quiet sampleCodec sampleBackend (Store.mk [] [] []) (papRequest secret)).trace)
      ∧ (auth quiet sampleCodec sampleBackend (Store.mk [] [] []) (papRequest secret)).panicked
        = false :=
  auth_no_such_user quiet sampleCodec sampleBackend (Store.mk [] [] []) (papRequest secret)
    (Limits.mk [] false 0 none none none none) (by decide) (by decide) (by decide)

/-! ### C7: disabled user against credential failure -/

/-- C7, as stated, fails: for the same PAP request of `bob`, the disabled
policy (right password, no session open) gives the reject `Invalid user/pass`,
while a policy with another password gives the reject `Invalid password`; the
two responses differ. -/
theorem c7_counterexample :
    (auth quiet sampleCodec sampleBackend (bobStore false 0) (papRequest secret)).writes
        = [Written.DefaultPacket PacketCode.AccessReject "Invalid user/pass"]
      ∧ (auth quiet sampleCodec sampleBackend
          (Store.mk [(bob, Limits.mk [112, 119] true 2 none none none none)] [] [])
          (papRequest secret)).writes
        = [Written.DefaultPacket PacketCode.AccessReject "Invalid password"]
      ∧ (auth quiet sampleCodec sampleBackend (bobStore false 0) (papRequest secret)).writes
        ≠ (auth quiet sampleCodec sampleBackend
          (Store.mk [(bob, Limits.mk [112, 119] true 2 none none none none)] [] [])
          (papRequest secret)).writes := by
  decide

/-- C7, as amended: for every structurally valid request, the response for an
administratively disabled user (`Ok` false, passing credential check, count
below the limit) is the single Access-Reject built by `DefaultPacket` with
the reason `Invalid user/pass`, and the response for the same request when the
credential check fails is the single Access-Reject built by `DefaultPacket`
with the reason `Invalid password`: the two agree in the packet code and
differ in the reason. -/
theorem auth_disabled_vs_mismatch {DB Txn : Type} (cfg : Config) (c : Codec)
    (m m2 : Backend DB Txn) (db db2 : DB) (req : Packet) (limits limits2 : Limits) (n : Int)
    (hv : c.ValidateAuthRequest req = "")
    (ha : m.Auth db (req.value AttributeType.UserName) = Except.ok limits)
    (hpass : limits.Pass ≠ []) (hcred : credentialOk c req limits.Pass)
    (hc : m.Conns db (req.value AttributeType.UserName) = Except.ok n)
    (hn : n < limits.SimultaneousUse) (hok : limits.Ok = false)
    (ha2 : m2.Auth db2 (req.value AttributeType.UserName) = Except.ok limits2)
    (hpass2 : limits2.Pass ≠ []) (hmis : credentialMismatch c req limits2.Pass) :
    (auth cfg c m db req).writes
        = [Written.DefaultPacket PacketCode.AccessReject "Invalid user/pass"]
      ∧ (auth cfg c m2 db2 req).writes
        = [Written.DefaultPacket PacketCode.AccessReject "Invalid password"]
      ∧ (auth cfg c m db req).writes ≠ (auth cfg c m2 db2 req).writes := by
  have h1 : (auth cfg c m db req).writes
      = [Written.DefaultPacket PacketCode.AccessReject "Invalid user/pass"] := by
    obtain ⟨pre, hw, _, hrun⟩ := auth_of_credentialOk cfg c m db req limits hv ha hpass hcred
    rw [hrun, after_not_ok c m db _ limits pre n hc hn hok]
    simp [Run.writes, hw, Event.written]
  have h2 := (auth_of_credentialMismatch cfg c m2 db2 req limits2 hv ha2 hpass2 hmis).1
  refine ⟨h1, h2, ?_⟩
  rw [h1, h2]
  decide

/-- The amended C7 at the PAP request of `bob`: disabled policy against a
policy with another password. -/
theorem auth_disabled_vs_mismatch_witness :
    (auth quiet sampleCodec sampleBackend (bobStore false 0) (papRequest secret)).writes
        = [Written.DefaultPacket PacketCode.AccessReject "Invalid user/pass"]
      ∧ (auth quiet sampleCodec sampleBackend
          (Store.mk [(bob, Limits.mk [112, 119] true 2 none none none none)] [] [])
          (papRequest secret)).writes
        = [Written.DefaultPacket PacketCode.AccessReject "Invalid password"]
      ∧ (auth quiet sampleCodec sampleBackend (bobStore false 0) (papRequest secret)).writes
        ≠ (auth quiet sampleCodec sampleBackend
          (Store.mk [(bob, Limits.mk [112, 119] true 2 none none none none)] [] [])
          (papRequest secret)).writes :=
  auth_disabled_vs_mismatch quiet sampleCodec sampleBackend sampleBackend (bobStore false 0)
    (Store.mk [(bob, Limits.mk [112, 119] true 2 none none none none)] [] [])
    (papRequest secret) (bobLimits false) (Limits.mk [112, 119] true 2 none none none none) 0
    (by decide) (by decide) (by decide) (by decide) (by decide) (by decide) (by decide)
    (by decide) (by decide) (by decide)

/-! ### C8: Accounting-Stop is all-or-nothing -/

/-- C8: for every Accounting-Stop request and every combination of
collaborator results, `acctStop` either issues `SessionUpdate`, one
`SessionLog` and one `SessionRemove` in the transaction, notifies the queue,
commits and writes one Accounting-Response, leaving the committed store that
`Commit` returned; or it leaves the committed store unchanged, never has a
successful `Commit` and writes nothing.  Nothing but a log line follows the
first failing store operation. -/
theorem acctStop_all_or_nothing {DB Txn : Type} (cfg : Config) (c : Codec)
    (m : Backend DB Txn) (db : DB) (req : Packet) :
    ((∃ txn txn1 txn2 txn3 db1,
        c.ValidateAcctRequest req = ""
        ∧ m.Begin db = Except.ok txn
        ∧ m.SessionUpdate txn (createSess c req) = Except.ok txn1
        ∧ m.SessionLog txn1 (req.value AttributeType.AcctSessionId)
            (req.value AttributeType.UserName)
            (c.DecodeIP (req.value AttributeType.NASIPAddress)) = Except.ok txn2
        ∧ m.SessionRemove txn2 (req.value AttributeType.AcctSessionId)
            (req.value AttributeType.UserName)
            (c.DecodeIP (req.value AttributeType.NASIPAddress)) = Except.ok txn3
        ∧ m.Commit db txn3 = Except.ok db1
        ∧ (acctStop cfg c m db req).db = db1
        ∧ (acctStop cfg c m db req).trace
          = verboseLog cfg "acct.stop sess=%s for user=%s sessTime=%d octetsIn=%d octetsOut=%d"
            ++ [Event.Begin true,
                Event.SessionUpdate (createSess c req) true,
                Event.SessionLog (req.value AttributeType.AcctSessionId)
                  (req.value AttributeType.UserName)
                  (c.DecodeIP (req.value AttributeType.NASIPAddress)) true,
                Event.SessionRemove (req.value AttributeType.AcctSessionId)
                  (req.value AttributeType.UserName)
                  (c.DecodeIP (req.value AttributeType.NASIPAddress)) true,
                Event.Queue (req.value AttributeType.UserName)
                  (c.DecodeFour (req.value AttributeType.AcctInputOctets))
                  (c.DecodeFour (req.value AttributeType.AcctOutputOctets))
                  (c.DecodeFour (req.value AttributeType.AcctInputPackets))
                  (c.DecodeFour (req.value AttributeType.AcctOutputPackets)),
                Event.Commit true,
                Event.write (Written.DefaultPacket PacketCode.AccountingResponse
                  "Finished accounting.")]
        ∧ (acctStop cfg c m db req).writes
          = [Written.DefaultPacket PacketCode.AccountingResponse "Finished accounting."])
      ∨ ((acctStop cfg c m db req).db = db
        ∧ (acctStop cfg c m db req).writes = []
        ∧ Event.Commit true ∉ (acctStop cfg c m db req).trace))
    ∧ stopsAtFirstFailure (acctStop cfg c m db req).trace = true
    ∧ (acctStop cfg c m db req).panicked = false := by
  by_cases hv : c.ValidateAcctRequest req = ""
  swap
  · simp [acctStop, hv, Run.writes, Event.written, stopsAtFirstFailure, Event.failed]
  cases hverb : cfg.Verbose <;>
  cases hb : m.Begin db with
  | error e =>
    simp [acctStop, hv, hb, Run.writes, Event.written, stopsAtFirstFailure, Event.failed,
      Event.isLog, verboseLog, hverb]
  | ok txn =>
    cases hu : m.SessionUpdate txn (createSess c req) with
    | error e =>
      simp [acctStop, hv, hb, hu, Run.writes, Event.written, stopsAtFirstFailure,
        Event.failed, Event.isLog, verboseLog, hverb]
    | ok txn1 =>
      cases hl : m.SessionLog txn1 (req.value AttributeType.AcctSessionId)
          (req.value AttributeType.UserName)
          (c.DecodeIP (req.value AttributeType.NASIPAddress)) with
      | error e =>
        simp [acctStop, hv, hb, hu, hl, Run.writes, Event.written, stopsAtFirstFailure,
          Event.failed, Event.isLog, verboseLog, hverb]
      | ok txn2 =>
        cases hr : m.SessionRemove txn2 (req.value AttributeType.AcctSessionId)
            (req.value AttributeType.UserName)
            (c.DecodeIP (req.value AttributeType.NASIPAddress)) with
        | error e =>
          simp [acctStop, hv, hb, hu, hl, hr, Run.writes, Event.written, stopsAtFirstFailure,
            Event.failed, Event.isLog, verboseLog, hverb]
        | ok txn3 =>
          cases hcm : m.Commit db txn3 with
          | error e =>
            simp [acctStop, hv, hb, hu, hl, hr, hcm, Run.writes, Event.written,
              stopsAtFirstFailure, Event.failed, Event.isLog, verboseLog, hverb]
          | ok db1 =>
            simp [acctStop, hv, hb, hu, hl, hr, hcm, Run.writes, Event.written,
              stopsAtFirstFailure, Event.failed, Event.isLog, verboseLog, hverb]

/-! ### C9: the queue notification precedes the commit -/

/-- C9: in `acctUpdate` and in `acctStop` the usage queue is notified at most
once; it is notified exactly when validation passes and `Begin` and every
store mutation of the transaction succeed, and then the notification stands
in the trace after the successful mutations and directly before `Commit`;
when `Commit` then fails, the queue has been notified and nothing is
written. -/
theorem queue_before_commit {DB Txn : Type} (cfg : Config) (c : Codec)
    (m : Backend DB Txn) (db : DB) (req : Packet) :
    (((acctUpdate cfg c m db req).queued = []
        ∨ (acctUpdate cfg c m db req).queued
          = [Event.Queue (createSess c req).User (createSess c req).BytesIn
              (createSess c req).BytesOut (createSess c req).PacketsIn
              (createSess c req).PacketsOut])
      ∧ ((acctUpdate cfg c m db req).queued ≠ [] ↔
          c.ValidateAcctRequest req = "" ∧ ∃ txn txn1, m.Begin db = Except.ok txn
            ∧ m.SessionUpdate txn (createSess c req) = Except.ok txn1)
      ∧ (∀ txn txn1, c.ValidateAcctRequest req = "" → m.Begin db = Except.ok txn →
          m.SessionUpdate txn (createSess c req) = Except.ok txn1 →
          (acctUpdate cfg c m db req).trace
            = verboseLog cfg
                "acct.update sess=%s for user=%s on NasIP=%s sessTime=%d octetsIn=%d octetsOut=%d"
              ++ [Event.Begin true, Event.SessionUpdate (createSess c req) true,
                  Event.Queue (createSess c req).User (createSess c req).BytesIn
                    (createSess c req).BytesOut (createSess c req).PacketsIn
                    (createSess c req).PacketsOut,
                  Event.Commit (m.Commit db txn1).isOk,
                  if (m.Commit db txn1).isOk then
                    Event.write (Written.DefaultPacket PacketCode.AccountingResponse
                      "Updated accounting.")
                  else Event.log "acct.update e="])
      ∧ (∀ txn txn1 e, c.ValidateAcctRequest req = "" → m.Begin db = Except.ok txn →
          m.SessionUpdate txn (createSess c req) = Except.ok txn1 →
          m.Commit db txn1 = Except.error e →
          (acctUpdate cfg c m db req).queued
              = [Event.Queue (createSess c req).User (createSess c req).BytesIn
                  (createSess c req).BytesOut (createSess c req).PacketsIn
                  (createSess c req).PacketsOut]
            ∧ (acctUpdate cfg c m db req).writes = []))
    ∧ (((acctStop cfg c m db req).queued = []
        ∨ (acctStop cfg c m db req).queued
          = [Event.Queue (req.value AttributeType.UserName)
              (c.DecodeFour (req.value AttributeType.AcctInputOctets))
              (c.DecodeFour (req.value AttributeType.AcctOutputOctets))
              (c.DecodeFour (req.value AttributeType.AcctInputPackets))
              (c.DecodeFour (req.value AttributeType.AcctOutputPackets))])
      ∧ ((acctStop cfg c m db req).queued ≠ [] ↔
          c.ValidateAcctRequest req = "" ∧ ∃ txn txn1 txn2 txn3, m.Begin db = Except.ok txn
            ∧ m.SessionUpdate txn (createSess c req) = Except.ok txn1
            ∧ m.SessionLog txn1 (req.value AttributeType.AcctSessionId)
                (req.value AttributeType.UserName)
                (c.DecodeIP (req.value AttributeType.NASIPAddress)) = Except.ok txn2
            ∧ m.SessionRemove txn2 (req.value AttributeType.AcctSessionId)
                (req.value AttributeType.UserName)
                (c.DecodeIP (req.value AttributeType.NASIPAddress)) = Except.ok txn3)
      ∧ (∀ txn txn1 txn2 txn3, c.ValidateAcctRequest req = "" → m.Begin db = Except.ok txn →
          m.SessionUpdate txn (createSess c req) = Except.ok txn1 →
          m.SessionLog txn1 (req.value AttributeType.AcctSessionId)
            (req.value AttributeType.UserName)
            (c.DecodeIP (req.value AttributeType.NASIPAddress)) = Except.ok txn2 →
          m.SessionRemove txn2 (req.value AttributeType.AcctSessionId)
            (req.value AttributeType.UserName)
            (c.DecodeIP (req.value AttributeType.NASIPAddress)) = Except.ok txn3 →
          (acctStop cfg c m db req).trace
            = verboseLog cfg
                "acct.stop sess=%s for user=%s sessTime=%d octetsIn=%d octetsOut=%d"
              ++ [Event.Begin true, Event.SessionUpdate (createSess c req) true,
                  Event.SessionLog (req.value AttributeType.AcctSessionId)
                    (req.value AttributeType.UserName)
                    (c.DecodeIP (req.value AttributeType.NASIPAddress)) true,
                  Event.SessionRemove (req.value AttributeType.AcctSessionId)
                    (req.value AttributeType.UserName)
                    (c.DecodeIP (req.value AttributeType.NASIPAddress)) true,
                  Event.Queue (req.value AttributeType.UserName)
                    (c.DecodeFour (req.value AttributeType.AcctInputOctets))
                    (c.DecodeFour (req.value AttributeType.AcctOutputOctets))
                    (c.DecodeFour (req.value AttributeType.AcctInputPackets))
                    (c.DecodeFour (req.value AttributeType.AcctOutputPackets)),
                  Event.Commit (m.Commit db txn3).isOk,
                  if (m.Commit db txn3).isOk then
                    Event.write (Written.DefaultPacket PacketCode.AccountingResponse
                      "Finished accounting.")
                  else Event.log "acct.update e="])
      ∧ (∀ txn txn1 txn2 txn3 e, c.ValidateAcctRequest req = "" →
          m.Begin db = Except.ok txn →
          m.SessionUpdate txn (createSess c req) = Except.ok txn1 →
          m.SessionLog txn1 (req.value AttributeType.AcctSessionId)
            (req.value AttributeType.UserName)
            (c.DecodeIP (req.value AttributeType.NASIPAddress)) = Except.ok txn2 →
          m.SessionRemove txn2 (req.value AttributeType.AcctSessionId)
            (req.value AttributeType.UserName)
            (c.DecodeIP (req.value AttributeType.NASIPAddress)) = Except.ok txn3 →
          m.Commit db txn3 = Except.error e →
          (acctStop cfg c m db req).queued
              = [Event.Queue (req.value AttributeType.UserName)
                  (c.DecodeFour (req.value AttributeType.AcctInputOctets))
                  (c.DecodeFour (req.value AttributeType.AcctOutputOctets))
                  (c.DecodeFour (req.value AttributeType.AcctInputPackets))
                  (c.DecodeFour (req.value AttributeType.AcctOutputPackets))]
            ∧ (acctStop cfg c m db req).writes = [])) := by
  refine ⟨⟨?_, ?_, ?_, ?_⟩, ⟨?_, ?_, ?_, ?_⟩⟩
  · by_cases hv : c.ValidateAcctRequest req = ""
    swap
    · simp [acctUpdate_invalid cfg c m db req hv, Run.queued, Event.isQueue]
    cases hb : m.Begin db with
    | error e =>
      simp [acctUpdate_begin_error cfg c m db req e hv hb, Run.queued, isQueue_verboseLog,
        Event.isQueue]
    | ok txn =>
      cases hu : m.SessionUpdate txn (createSess c req) with
      | error e =>
        simp [acctUpdate_update_error cfg c m db req txn e hv hb hu, Run.queued,
          isQueue_verboseLog, Event.isQueue]
      | ok txn1 =>
        cases hcm : m.Commit db txn1 with
        | error e =>
          simp [acctUpdate_commit_error cfg c m db req txn txn1 e hv hb hu hcm, Run.queued,
            isQueue_verboseLog, Event.isQueue]
        | ok db1 =>
          simp [acctUpdate_commit_ok cfg c m db req txn txn1 db1 hv hb hu hcm, Run.queued,
            isQueue_verboseLog, Event.isQueue]
  · by_cases hv : c.ValidateAcctRequest req = ""
    swap
    · simp [acctUpdate_invalid cfg c m db req hv, Run.queued, Event.isQueue, hv]
    cases hb : m.Begin db with
    | error e =>
      simp [acctUpdate_begin_error cfg c m db req e hv hb, Run.queued, isQueue_verboseLog,
        Event.isQueue]
    | ok txn =>
      cases hu : m.SessionUpdate txn (createSess c req) with
      | error e =>
        simp [acctUpdate_update_error cfg c m db req txn e hv hb hu, Run.queued,
          isQueue_verboseLog, Event.isQueue, hu]
      | ok txn1 =>
        cases hcm : m.Commit db txn1 with
        | error e =>
          simp [acctUpdate_commit_error cfg c m db req txn txn1 e hv hb hu hcm, Run.queued,
            isQueue_verboseLog, Event.isQueue, hv, hu]
        | ok db1 =>
          simp [acctUpdate_commit_ok cfg c m db req txn txn1 db1 hv hb hu hcm, Run.queued,
            isQueue_verboseLog, Event.isQueue, hv, hu]
  · intro txn txn1 hv hb hu
    cases hcm : m.Commit db txn1 with
    | error e =>
      simp [acctUpdate_commit_error cfg c m db req txn txn1 e hv hb hu hcm, Except.isOk,
        Except.toBool]
    | ok db1 =>
      simp [acctUpdate_commit_ok cfg c m db req txn txn1 db1 hv hb hu hcm, Except.isOk,
        Except.toBool]
  · intro txn txn1 e hv hb hu hcm
    simp [acctUpdate_commit_error cfg c m db req txn txn1 e hv hb hu hcm, Run.queued,
      isQueue_verboseLog, Event.isQueue, Run.writes, written_verboseLog, Event.written]
  · by_cases hv : c.ValidateAcctRequest req = ""
    swap
    · simp [acctStop_invalid cfg c m db req hv, Run.queued, Event.isQueue]
    cases hb : m.Begin db with
    | error e =>
      simp [acctStop_begin_error cfg c m db req e hv hb, Run.queued, isQueue_verboseLog,
        Event.isQueue]
    | ok txn =>
      cases hu : m.SessionUpdate txn (createSess c req) with
      | error e =>
        simp [acctStop_update_error cfg c m db req txn e hv hb hu, Run.queued,
          isQueue_verboseLog, Event.isQueue]
      | ok txn1 =>
        cases hl : m.SessionLog txn1 (req.value AttributeType.AcctSessionId)
            (req.value AttributeType.UserName)
            (c.DecodeIP (req.value AttributeType.NASIPAddress)) with
        | error e =>
          simp [acctStop_log_error cfg c m db req txn txn1 e hv hb hu hl, Run.queued,
            isQueue_verboseLog, Event.isQueue]
        | ok txn2 =>
          cases hr : m.SessionRemove txn2 (req.value AttributeType.AcctSessionId)
              (req.value AttributeType.UserName)
              (c.DecodeIP (req.value AttributeType.NASIPAddress)) with
          | error e =>
            simp [acctStop_remove_error cfg c m db req txn txn1 txn2 e hv hb hu hl hr,
              Run.queued, isQueue_verboseLog, Event.isQueue]
          | ok txn3 =>
            cases hcm : m.Commit db txn3 with
            | error e =>
              simp [acctStop_commit_error cfg c m db req txn txn1 txn2 txn3 e hv hb hu hl hr hcm,
                Run.queued, isQueue_verboseLog, Event.isQueue]
            | ok db1 =>
              simp [acctStop_commit_ok cfg c m db req txn txn1 txn2 txn3 db1 hv hb hu hl hr hcm,
                Run.queued, isQueue_verboseLog, Event.isQueue]
  · by_cases hv : c.ValidateAcctRequest req = ""
    swap
    · simp [acctStop_invalid cfg c m db req hv, Run.queued, Event.isQueue, hv]
    cases hb : m.Begin db with
    | error e =>
      simp [acctStop_begin_error cfg c m db req e hv hb, Run.queued, isQueue_verboseLog,
        Event.isQueue]
    | ok txn =>
      cases hu : m.SessionUpdate txn (createSess c req) with
      | error e =>
        simp [acctStop_update_error cfg c m db req txn e hv hb hu, Run.queued,
          isQueue_verboseLog, Event.isQueue, hu]
      | ok txn1 =>
        cases hl : m.SessionLog txn1 (req.value AttributeType.AcctSessionId)
            (req.value AttributeType.UserName)
            (c.DecodeIP (req.value AttributeType.NASIPAddress)) with
        | error e =>
          simp [acctStop_log_error cfg c m db req txn txn1 e hv hb hu hl, Run.queued,
            isQueue_verboseLog, Event.isQueue, hu, hl]
        | ok txn2 =>
          cases hr : m.SessionRemove txn2 (req.value AttributeType.AcctSessionId)
              (req.value AttributeType.UserName)
              (c.DecodeIP (req.value AttributeType.NASIPAddress)) with
          | error e =>
            simp [acctStop_remove_error cfg c m db req txn txn1 txn2 e hv hb hu hl hr,
              Run.queued, isQueue_verboseLog, Event.isQueue, hu, hl, hr]
          | ok txn3 =>
            cases hcm : m.Commit db txn3 with
            | error e =>
              simp [acctStop_commit_error cfg c m db req txn txn1 txn2 txn3 e hv hb hu hl hr hcm,
                Run.queued, isQueue_verboseLog, Event.isQueue, hv, hu, hl, hr]
            | ok db1 =>
              simp [acctStop_commit_ok cfg c m db req txn txn1 txn2 txn3 db1 hv hb hu hl hr hcm,
                Run.queued, isQueue_verboseLog, Event.isQueue, hv, hu, hl, hr]
  · intro txn txn1 txn2 txn3 hv hb hu hl hr
    cases hcm : m.Commit db txn3 with
    | error e =>
      simp [acctStop_commit_error cfg c m db req txn txn1 txn2 txn3 e hv hb hu hl hr hcm,
        Except.isOk, Except.toBool]
    | ok db1 =>
      simp [acctStop_commit_ok cfg c m db req txn txn1 txn2 txn3 db1 hv hb hu hl hr hcm,
        Except.isOk, Except.toBool]
  · intro txn txn1 txn2 txn3 e hv hb hu hl hr hcm
    simp [acctStop_commit_error cfg c m db req txn txn1 txn2 txn3 e hv hb hu hl hr hcm,
      Run.queued, isQueue_verboseLog, Event.isQueue, Run.writes, written_verboseLog,
      Event.written]

/-- C9 at the accounting request of `bob` against a store whose `Commit`
fails: in both handlers the queue has been notified with the usage of the
request and nothing is written. -/
theorem queue_before_commit_witness :
    ((acctUpdate quiet sampleCodec commitFails (bobStore true 1) acctRequest).queued
        = [Event.Queue bob 1000 2000 10 20]
      ∧ (acctUpdate quiet sampleCodec commitFails (bobStore true 1) acctRequest).writes = [])
    ∧ ((acctStop quiet sampleCodec commitFails (bobStore true 1) acctRequest).queued
        = [Event.Queue bob 1000 2000 10 20]
      ∧ (acctStop quiet sampleCodec commitFails (bobStore true 1) acctRequest).writes = []) :=
  have h := queue_before_commit quiet sampleCodec commitFails (bobStore true 1) acctRequest
  ⟨h.1.2.2.2 _ _ (ModelError.other "commit failed") (by decide) rfl rfl rfl,
   h.2.2.2.2 _ _ _ _ (ModelError.other "commit failed") (by decide) rfl rfl rfl rfl rfl⟩

/-! ### C10: Interim-Update -/

/-- C10: for every Interim-Update request, `acctUpdate` writes the
Accounting-Response if and only if validation passes and `Begin`,
`SessionUpdate` and `Commit` all succeed, and otherwise writes nothing; when
validation, `Begin` or `SessionUpdate` fails, `Commit` is not called, the
committed store is left unchanged and nothing is written. -/
theorem acctUpdate_response_iff {DB Txn : Type} (cfg : Config) (c : Codec)
    (m : Backend DB Txn) (db : DB) (req : Packet) :
    ((acctUpdate cfg c m db req).writes
        = [Written.DefaultPacket PacketCode.AccountingResponse "Updated accounting."]
      ↔ c.ValidateAcctRequest req = "" ∧ ∃ txn txn1 db1, m.Begin db = Except.ok txn
          ∧ m.SessionUpdate txn (createSess c req) = Except.ok txn1
          ∧ m.Commit db txn1 = Except.ok db1)
    ∧ ((acctUpdate cfg c m db req).writes = []
      ∨ (acctUpdate cfg c m db req).writes
        = [Written.DefaultPacket PacketCode.AccountingResponse "Updated accounting."])
    ∧ ((c.ValidateAcctRequest req ≠ ""
        ∨ (∃ e, m.Begin db = Except.error e)
        ∨ (∃ txn e, m.Begin db = Except.ok txn
            ∧ m.SessionUpdate txn (createSess c req) = Except.error e)) →
      (acctUpdate cfg c m db req).db = db
        ∧ (acctUpdate cfg c m db req).writes = []
        ∧ (∀ b, Event.Commit b ∉ (acctUpdate cfg c m db req).trace))
    ∧ (acctUpdate cfg c m db req).panicked = false := by
  by_cases hv : c.ValidateAcctRequest req = ""
  swap
  · simp [acctUpdate_invalid cfg c m db req hv, Run.writes, Event.written, hv]
  cases hverb : cfg.Verbose <;>
  cases hb : m.Begin db with
  | error e =>
    simp [acctUpdate_begin_error cfg c m db req e hv hb, Run.writes, Event.written,
      verboseLog, hverb]
  | ok txn =>
    cases hu : m.SessionUpdate txn (createSess c req) with
    | error e =>
      simp [acctUpdate_update_error cfg c m db req txn e hv hb hu, Run.writes, Event.written,
        verboseLog, hverb, hu]
    | ok txn1 =>
      cases hcm : m.Commit db txn1 with
      | error e =>
        simp [acctUpdate_commit_error cfg c m db req txn txn1 e hv hb hu hcm, Run.writes,
          Event.written, verboseLog, hverb, hv, hu, hcm]
      | ok db1 =>
        simp [acctUpdate_commit_ok cfg c m db req txn txn1 db1 hv hb hu hcm, Run.writes,
          Event.written, verboseLog, hverb, hv, hu, hcm]

/-- C10 at the accounting request of `bob`: with the sample store the
response is written; with a request that the accounting validator refuses
(it lacks `AcctSessionId`) the store is unchanged and nothing is written. -/
theorem acctUpdate_response_iff_witness :
    (acctUpdate quiet sampleCodec sampleBackend (bobStore true 1) acctRequest).writes
        = [Written.DefaultPacket PacketCode.AccountingResponse "Updated accounting."]
      ∧ ((acctUpdate quiet sampleCodec sampleBackend (bobStore true 1)
            (papRequest secret)).db = bobStore true 1
        ∧ (acctUpdate quiet sampleCodec sampleBackend (bobStore true 1)
            (papRequest secret)).writes = []
        ∧ (∀ b, Event.Commit b ∉ (acctUpdate quiet sampleCodec sampleBackend (bobStore true 1)
            (papRequest secret)).trace)) :=
  ⟨(acctUpdate_response_iff quiet sampleCodec sampleBackend (bobStore true 1) acctRequest).1.mpr
      ⟨by decide, _, _, _, rfl, rfl, rfl⟩,
   (acctUpdate_response_iff quiet sampleCodec sampleBackend (bobStore true 1)
      (papRequest secret)).2.2.1 (Or.inl (by decide))⟩

/-! ### C11: Accounting-Start -/

/-- C11: for every Accounting-Start request, `acctBegin` calls `SessionAdd`
exactly when validation passes, `FramedIPAddress` is present and
`model.Limits` returns no error, and then once, with the request's
`AcctSessionId`, `UserName`, decoded `NASIPAddress`, decoded `FramedIPAddress`
and `CallingStationId`; when the lookup fails nothing is added to the store
and nothing is written; the Accounting-Response is written exactly when
`SessionAdd` succeeds; and no log, update or remove operation is issued. -/
theorem acctBegin_session_add {DB Txn : Type} (cfg : Config) (c : Codec)
    (m : Backend DB Txn) (db : DB) (req : Packet) :
    ((acctBegin cfg c m db req).trace.filter Event.isSessionAdd
        = if c.ValidateAcctRequest req = "" ∧ req.has AttributeType.FramedIPAddress = true
              ∧ (m.Limits db (req.value AttributeType.UserName)).isOk = true then
            [expectedSessionAdd c req
              (m.SessionAdd db (req.value AttributeType.AcctSessionId)
                (req.value AttributeType.UserName)
                (c.DecodeIP (req.value AttributeType.NASIPAddress))
                (c.DecodeIP (req.value AttributeType.FramedIPAddress))
                (req.value AttributeType.CallingStationId)).isOk]
          else [])
    ∧ (∀ e, m.Limits db (req.value AttributeType.UserName) = Except.error e →
        (acctBegin cfg c m db req).db = db
          ∧ (acctBegin cfg c m db req).writes = []
          ∧ (acctBegin cfg c m db req).trace.filter Event.isSessionAdd = [])
    ∧ ((acctBegin cfg c m db req).writes
          = [Written.Response PacketCode.AccountingResponse []]
        ↔ expectedSessionAdd c req true ∈ (acctBegin cfg c m db req).trace)
    ∧ ((acctBegin cfg c m db req).writes = []
        ∨ (acctBegin cfg c m db req).writes
          = [Written.Response PacketCode.AccountingResponse []])
    ∧ (∀ ev ∈ (acctBegin cfg c m db req).trace, ev.isLogUpdateRemove = false)
    ∧ (acctBegin cfg c m db req).panicked = false := by
  by_cases hv : c.ValidateAcctRequest req = ""
  swap
  · simp [acctBegin_invalid cfg c m db req hv, hv, Run.writes, Event.written,
      Event.isSessionAdd, Event.isLogUpdateRemove, expectedSessionAdd]
  cases hf : req.has AttributeType.FramedIPAddress with
  | false =>
    simp [acctBegin_no_framed cfg c m db req hv hf, Run.writes, Event.written,
      Event.isSessionAdd, Event.isLogUpdateRemove, expectedSessionAdd]
  | true =>
    cases hverb : cfg.Verbose <;>
    cases hl : m.Limits db (req.value AttributeType.UserName) with
    | error e =>
      simp [acctBegin_limits_error cfg c m db req e hv hf hl, Run.writes, Event.written,
        Event.isSessionAdd, Event.isLogUpdateRemove, expectedSessionAdd, verboseLog, hverb,
        Except.isOk, Except.toBool]
    | ok l =>
      cases ha : m.SessionAdd db (req.value AttributeType.AcctSessionId)
          (req.value AttributeType.UserName)
          (c.DecodeIP (req.value AttributeType.NASIPAddress))
          (c.DecodeIP (req.value AttributeType.FramedIPAddress))
          (req.value AttributeType.CallingStationId) with
      | error e =>
        simp [acctBegin_add_error cfg c m db req l e hv hf hl ha, Run.writes, Event.written,
          Event.isSessionAdd, Event.isLogUpdateRemove, expectedSessionAdd, verboseLog, hverb,
          Except.isOk, Except.toBool, hv]
      | ok db1 =>
        simp [acctBegin_add_ok cfg c m db req l db1 hv hf hl ha, Run.writes, Event.written,
          Event.isSessionAdd, Event.isLogUpdateRemove, expectedSessionAdd, verboseLog, hverb,
          Except.isOk, Except.toBool, hv]

/-- C11 at the Accounting-Start of `bob` (scenario 3 of the specification):
the store gains one row with zeroed counters and the Accounting-Response is
written; for a user without policy nothing is added and nothing is written. -/
theorem acctBegin_session_add_witness :
    ((acctBegin quiet sampleCodec sampleBackend (bobStore true 0) startRequest).writes
        = [Written.Response PacketCode.AccountingResponse []]
      ∧ (acctBegin quiet sampleCodec sampleBackend (bobStore true 0) startRequest).db.sessions
        = [Session.mk 0 0 0 0 [5] 0 bob nas])
    ∧ ((acctBegin quiet sampleCodec sampleBackend (Store.mk [] [] []) startRequest).db
        = Store.mk [] [] []
      ∧ (acctBegin quiet sampleCodec sampleBackend (Store.mk [] [] []) startRequest).writes = []
      ∧ (acctBegin quiet sampleCodec sampleBackend (Store.mk [] [] []) startRequest).trace.filter
          Event.isSessionAdd = []) :=
  ⟨⟨(acctBegin_session_add quiet sampleCodec sampleBackend (bobStore true 0)
        startRequest).2.2.1.mpr (by decide), by decide⟩,
   (acctBegin_session_add quiet sampleCodec sampleBackend (Store.mk [] [] [])
        startRequest).2.1 ModelError.ErrNoRows (by decide)⟩

/-! ### C12: the attributes of the Access-Accept -/

/-- C12: for every accepted Access-Request, the attribute list of the
Access-Accept is the list of the specification: one attribute for each policy
field that is set among `DedicatedIP`, `Ratelimit` and `DnsOne`, in this
order, and nothing else; its length is the number of fields set, and it is
empty when none is set. -/
theorem auth_accept_attributes {DB Txn : Type} (cfg : Config) (c : Codec)
    (m : Backend DB Txn) (db : DB) (req : Packet) (limits : Limits)
    (ha : m.Auth db (req.value AttributeType.UserName) = Except.ok limits)
    (hacc : (auth cfg c m db req).accepts = true) :
    (auth cfg c m db req).writes
        = [Written.Response PacketCode.AccessAccept (referenceReply c limits)]
      ∧ (referenceReply c limits).length = limits.optionalSet
      ∧ (limits.DedicatedIP = none → limits.Ratelimit = none → limits.DnsOne = none →
          (auth cfg c m db req).writes = [Written.Response PacketCode.AccessAccept []]) := by
  rw [auth_accepts_iff] at hacc
  obtain ⟨hv, l, n, hl, hpass, hcred, hc, hn, hok, hdns⟩ := hacc
  rw [ha] at hl
  cases hl
  obtain ⟨pre, hw, _, hrun⟩ := auth_of_credentialOk cfg c m db req limits hv ha hpass hcred
  have hwr : (auth cfg c m db req).writes
      = [Written.Response PacketCode.AccessAccept (referenceReply c limits)] := by
    rw [hrun, after_ok_reply c m db _ limits pre n hc hn hok hdns]
    simp [Run.writes, hw, Event.written]
  refine ⟨hwr, ?_, ?_⟩
  · cases hd : limits.DedicatedIP <;> cases hr : limits.Ratelimit <;>
      cases h1 : limits.DnsOne <;>
      simp [referenceReply, Limits.optionalSet, hd, hr, h1]
  · intro hd hr h1
    rw [hwr]
    simp [referenceReply, hd, hr, h1]

/-- C12 at two accepted PAP requests of `bob`: with no optional field set the
attribute list is empty (scenario 1 of the specification); with all fields set
it holds the three attributes in order. -/
theorem auth_accept_attributes_witness :
    (auth quiet sampleCodec sampleBackend (bobStore true 0) (papRequest secret)).writes
        = [Written.Response PacketCode.AccessAccept []]
      ∧ (auth quiet sampleCodec sampleBackend
          (Store.mk [(bob, fullLimits (some [8, 8, 4, 4]))] [] []) (papRequest secret)).writes
        = [Written.Response PacketCode.AccessAccept
            [PubAttr.mk AttributeType.FramedIPAddress [10, 0, 0, 9],
             PubAttr.mk AttributeType.VendorSpecific [49, 77],
             PubAttr.mk AttributeType.VendorSpecific [8, 8, 8, 8, 8, 8, 4, 4]]] :=
  ⟨(auth_accept_attributes quiet sampleCodec sampleBackend (bobStore true 0)
      (papRequest secret) (bobLimits true) (by decide) (by decide)).2.2 rfl rfl rfl,
   (auth_accept_attributes quiet sampleCodec sampleBackend
      (Store.mk [(bob, fullLimits (some [8, 8, 4, 4]))] [] []) (papRequest secret)
      (fullLimits (some [8, 8, 4, 4])) (by decide) (by decide)).1⟩

/-! ### C13: `DnsOne` without `DnsTwo` -/

/-- C13 fails on the code: for the policy of `bob` with `DnsOne` set and
`DnsTwo` absent, the accepted PAP request of `bob` reaches the construction of
the reply attributes, which ends in a run-time panic (the dereference of the
nil `DnsTwo`); nothing is written.  With `DnsTwo` present the same request is
accepted. -/
theorem dnsTwo_missing_panics :
    sampleCodec.ValidateAuthRequest (papRequest secret) = ""
      ∧ (fullLimits none).DnsOne = some [8, 8, 8, 8]
      ∧ (fullLimits none).DnsTwo = none
      ∧ (auth quiet sampleCodec sampleBackend (Store.mk [(bob, fullLimits none)] [] [])
          (papRequest secret)).panicked = true
      ∧ (auth quiet sampleCodec sampleBackend (Store.mk [(bob, fullLimits none)] [] [])
          (papRequest secret)).trace = [Event.Auth bob, Event.Conns bob]
      ∧ (auth quiet sampleCodec sampleBackend (Store.mk [(bob, fullLimits none)] [] [])
          (papRequest secret)).writes = []
      ∧ (auth quiet sampleCodec sampleBackend
          (Store.mk [(bob, fullLimits (some [8, 8, 4, 4]))] [] [])
          (papRequest secret)).accepts = true := by
  decide

/-! ### C14: no fault escapes `auth` -/

/-- C14 fails on the code: the CHAP request of `bob` whose `CHAPPassword`
value has length zero passes the validator, and `auth` ends in a run-time
panic at `Value[1:]` after the policy lookup; the policy of `bob` has no DNS
field set, so the precondition on the policy data holds. -/
theorem empty_chap_panics :
    sampleCodec.ValidateAuthRequest emptyChapRequest = ""
      ∧ emptyChapRequest.has AttributeType.CHAPPassword = true
      ∧ (emptyChapRequest.value AttributeType.CHAPPassword).length = 0
      ∧ sampleBackend.Auth (bobStore true 0) bob = Except.ok (bobLimits true)
      ∧ ((bobLimits true).DnsOne.isSome = true → (bobLimits true).DnsTwo.isSome = true)
      ∧ (auth quiet sampleCodec sampleBackend (bobStore true 0) emptyChapRequest).panicked
          = true
      ∧ (auth quiet sampleCodec sampleBackend (bobStore true 0) emptyChapRequest).trace
          = [Event.Auth bob] := by
  decide

/-! ### C15: a failed validation is a silent drop -/

/-- C15: in each of `auth`, `acctBegin`, `acctUpdate` and `acctStop`, when
the request validator returns a non-empty diagnostic the handler only logs: it
writes nothing, performs no policy-store, session-store, transaction or
usage-queue operation, and leaves the store as it was. -/
theorem invalid_request_dropped {DB Txn : Type} (cfg : Config) (c : Codec)
    (m : Backend DB Txn) (db : DB) (req : Packet) :
    (c.ValidateAuthRequest req ≠ "" →
      (auth cfg c m db req).trace = [Event.log "auth.begin e=%s"]
        ∧ (auth cfg c m db req).trace.all Event.isLog = true
        ∧ (auth cfg c m db req).writes = []
        ∧ (auth cfg c m db req).db = db
        ∧ (auth cfg c m db req).panicked = false)
    ∧ (c.ValidateAcctRequest req ≠ "" →
      ((acctBegin cfg c m db req).trace = [Event.log "WARN: acct.begin err="]
        ∧ (acctBegin cfg c m db req).trace.all Event.isLog = true
        ∧ (acctBegin cfg c m db req).writes = []
        ∧ (acctBegin cfg c m db req).db = db
        ∧ (acctBegin cfg c m db req).panicked = false)
      ∧ ((acctUpdate cfg c m db req).trace = [Event.log "acct.update e="]
        ∧ (acctUpdate cfg c m db req).trace.all Event.isLog = true
        ∧ (acctUpdate cfg c m db req).writes = []
        ∧ (acctUpdate cfg c m db req).db = db
        ∧ (acctUpdate cfg c m db req).panicked = false)
      ∧ ((acctStop cfg c m db req).trace = [Event.log "acct.stop e="]
        ∧ (acctStop cfg c m db req).trace.all Event.isLog = true
        ∧ (acctStop cfg c m db req).writes = []
        ∧ (acctStop cfg c m db req).db = db
        ∧ (acctStop cfg c m db req).panicked = false)) := by
  constructor
  · intro hv
    simp [auth, hv, Run.writes, Event.written, Event.isLog]
  · intro hv
    simp [acctBegin_invalid cfg c m db req hv, acctUpdate_invalid cfg c m db req hv,
      acctStop_invalid cfg c m db req hv, Run.writes, Event.written, Event.isLog]

/-- C15 at the request without attributes, which both validators refuse. -/
theorem invalid_request_dropped_witness :
    (auth quiet sampleCodec sampleBackend (bobStore true 1) emptyRequest).trace
        = [Event.log "auth.begin e=%s"]
      ∧ (acctBegin quiet sampleCodec sampleBackend (bobStore true 1) emptyRequest).writes = []
      ∧ (acctUpdate quiet sampleCodec sampleBackend (bobStore true 1) emptyRequest).db
        = bobStore true 1
      ∧ (acctStop quiet sampleCodec sampleBackend (bobStore true 1) emptyRequest).trace.all
          Event.isLog = true :=
  have h := invalid_request_dropped quiet sampleCodec sampleBackend (bobStore true 1)
    emptyRequest
  have h2 := h.2 (by decide)
  ⟨(h.1 (by decide)).1, h2.1.2.2.1, h2.2.1.2.2.2.1, h2.2.2.2.1⟩

/-! ### C16: `auth` only reads -/

/-- C16: for every request and every collaborator result, `auth` leaves the
store as it was and performs only log lines, the policy lookup and the session
count of the request's user, and writes: no store mutation, no transaction and
no queue notification.  The policy lookup happens once when the validator
accepts the request and not at all otherwise; the session count happens at
most once, and only when the lookup succeeded with a non-empty `Pass` and the
credential check passed. -/
theorem auth_read_only {DB Txn : Type} (cfg : Config) (c : Codec)
    (m : Backend DB Txn) (db : DB) (req : Packet) :
    (auth cfg c m db req).db = db
      ∧ (auth cfg c m db req).trace.all
          (Event.isAuthRead (req.value AttributeType.UserName)) = true
      ∧ (auth cfg c m db req).trace.countP Event.isAuthCall
          = (if c.ValidateAuthRequest req = "" then 1 else 0)
      ∧ (auth cfg c m db req).trace.countP Event.isConnsCall ≤ 1
      ∧ ((auth cfg c m db req).trace.countP Event.isConnsCall = 1 →
          ∃ limits, m.Auth db (req.value AttributeType.UserName) = Except.ok limits
            ∧ limits.Pass ≠ [] ∧ credentialOk c req limits.Pass) := by
  by_cases hv : c.ValidateAuthRequest req = ""
  swap
  · simp [auth, hv, Event.isAuthRead, Event.isAuthCall, Event.isConnsCall]
  cases ha : m.Auth db (req.value AttributeType.UserName) with
  | error e => simp [auth, hv, ha, Event.isAuthRead, Event.isAuthCall, Event.isConnsCall]
  | ok limits =>
    by_cases hpass : limits.Pass = []
    · simp [auth, hv, ha, hpass, Event.isAuthRead, Event.isAuthCall, Event.isConnsCall]
    by_cases hcred : credentialOk c req limits.Pass
    · obtain ⟨fmt, hrun⟩ := auth_of_credentialOk_trace cfg c m db req limits hv ha hpass hcred
      obtain ⟨hdb, tail, htr, hlen, htail⟩ :=
        after_trace c m db (req.value AttributeType.UserName) limits
          ([Event.Auth (req.value AttributeType.UserName)] ++ verboseLog cfg fmt)
      rw [hrun, hdb, htr]
      have htail2 : ∀ ev ∈ tail, Event.isAuthRead (req.value AttributeType.UserName) ev = true
          ∧ Event.isAuthCall ev = false ∧ Event.isConnsCall ev = false := by
        intro ev hev
        rcases htail ev hev with h | h <;> cases ev <;>
          simp [Event.isLog, Event.written, Event.isAuthRead, Event.isAuthCall,
            Event.isConnsCall] at h ⊢
      have hc1 : tail.countP Event.isAuthCall = 0 :=
        List.countP_eq_zero.mpr (fun ev hev => by simp [(htail2 ev hev).2.1])
      have hc2 : tail.countP Event.isConnsCall = 0 :=
        List.countP_eq_zero.mpr (fun ev hev => by simp [(htail2 ev hev).2.2])
      have hall : tail.all (Event.isAuthRead (req.value AttributeType.UserName)) = true :=
        List.all_eq_true.mpr (fun ev hev => (htail2 ev hev).1)
      refine ⟨rfl, ?_, ?_, ?_, ?_⟩
      · cases hverb : cfg.Verbose <;>
          simp [verboseLog, hverb, Event.isAuthRead, hall]
      · cases hverb : cfg.Verbose <;>
          simp [verboseLog, hverb, Event.isAuthCall, hc1, List.countP_cons, hv]
      · cases hverb : cfg.Verbose <;>
          simp [verboseLog, hverb, Event.isConnsCall, hc2, List.countP_cons]
      · intro _
        exact ⟨limits, rfl, hpass, hcred⟩
    · by_cases hp : req.has AttributeType.UserPassword = true
      · have hne : c.DecryptPassword (req.value AttributeType.UserPassword) req
            ≠ limits.Pass := by
          intro h
          apply hcred
          unfold credentialOk
          rw [if_pos hp]
          exact h
        simp [auth, hv, ha, hpass, hp, hne, Event.isAuthRead, Event.isAuthCall,
          Event.isConnsCall]
      · by_cases hch : req.has AttributeType.CHAPPassword = true
        · by_cases hraw : req.value AttributeType.CHAPPassword = []
          · simp [auth, hv, ha, hpass, hp, hch, hraw, Event.isAuthRead, Event.isAuthCall,
              Event.isConnsCall]
          · have hne : (req.value AttributeType.CHAPPassword).drop 1
                ≠ c.md5 ((req.value AttributeType.CHAPPassword).take 1 ++ limits.Pass
                    ++ req.value AttributeType.CHAPChallenge) := by
              intro h
              apply hcred
              unfold credentialOk
              rw [if_neg hp]
              exact ⟨hch, hraw, h⟩
            simp only [List.drop_one, List.append_assoc] at hne
            cases hverb : cfg.Verbose <;>
              simp [auth, hv, ha, hpass, hp, hch, hraw, hne, Event.isAuthRead,
                Event.isAuthCall, Event.isConnsCall, verboseLog, hverb, List.countP_cons]
        · simp [auth, hv, ha, hpass, hp, hch, Event.isAuthRead, Event.isAuthCall,
            Event.isConnsCall]

/-- C16 at the accepted PAP request of `bob`: one lookup, one count, one
write, and the store untouched. -/
theorem auth_read_only_witness :
    (auth quiet sampleCodec sampleBackend (bobStore true 0) (papRequest secret)).db
        = bobStore true 0
      ∧ (auth quiet sampleCodec sampleBackend (bobStore true 0) (papRequest secret)).trace
        = [Event.Auth bob, Event.Conns bob,
           Event.write (Written.Response PacketCode.AccessAccept [])]
      ∧ ∃ limits, sampleBackend.Auth (bobStore true 0)
            ((papRequest secret).value AttributeType.UserName) = Except.ok limits
          ∧ limits.Pass ≠ [] ∧ credentialOk sampleCodec (papRequest secret) limits.Pass :=
  have h := auth_read_only quiet sampleCodec sampleBackend (bobStore true 0) (papRequest secret)
  ⟨h.1, by decide, h.2.2.2.2 (by decide)⟩

/-! ### C17: replaying an Interim-Update -/

/-- C17: over a store in which a transaction starts from the committed state,
`Commit` installs the state of the transaction, and `SessionUpdate` overwrites
(writing the same snapshot a second time changes nothing), replaying an
identical Interim-Update whose first run committed leaves the committed store
equal to the store after the first run. -/
theorem acctUpdate_replay {DB : Type} (cfg : Config) (c : Codec) (m : Backend DB DB)
    (db : DB) (req : Packet)
    (hBegin : ∀ d t, m.Begin d = Except.ok t → t = d)
    (hCommit : ∀ d t d1, m.Commit d t = Except.ok d1 → d1 = t)
    (hUpdate : ∀ t s t1 t2, m.SessionUpdate t s = Except.ok t1 →
      m.SessionUpdate t1 s = Except.ok t2 → t2 = t1)
    (hfirst : (acctUpdate cfg c m db req).writes
      = [Written.DefaultPacket PacketCode.AccountingResponse "Updated accounting."]) :
    (acctUpdate cfg c m (acctUpdate cfg c m db req).db req).db
      = (acctUpdate cfg c m db req).db := by
  by_cases hv : c.ValidateAcctRequest req = ""
  swap
  · simp [acctUpdate_invalid cfg c m _ req hv]
  cases hb : m.Begin db with
  | error e =>
    rw [acctUpdate_begin_error cfg c m db req e hv hb] at hfirst
    simp [Run.writes, written_verboseLog, Event.written] at hfirst
  | ok txn =>
    cases hu : m.SessionUpdate txn (createSess c req) with
    | error e =>
      rw [acctUpdate_update_error cfg c m db req txn e hv hb hu] at hfirst
      simp [Run.writes, written_verboseLog, Event.written] at hfirst
    | ok txn1 =>
      cases hcm : m.Commit db txn1 with
      | error e =>
        rw [acctUpdate_commit_error cfg c m db req txn txn1 e hv hb hu hcm] at hfirst
        simp [Run.writes, written_verboseLog, Event.written] at hfirst
      | ok db1 =>
        have htxn : txn = db := hBegin db txn hb
        have hdb1 : db1 = txn1 := hCommit db txn1 db1 hcm
        subst htxn
        subst hdb1
        rw [acctUpdate_commit_ok cfg c m txn req txn db1 db1 hv hb hu hcm]
        cases hb2 : m.Begin db1 with
        | error e => simp [acctUpdate_begin_error cfg c m db1 req e hv hb2]
        | ok t =>
          have ht : t = db1 := hBegin db1 t hb2
          subst ht
          cases hu2 : m.SessionUpdate t (createSess c req) with
          | error e => simp [acctUpdate_update_error cfg c m t req t e hv hb2 hu2]
          | ok t2 =>
            have ht2 : t2 = t := hUpdate txn (createSess c req) t t2 hu hu2
            subst ht2
            cases hcm2 : m.Commit t2 t2 with
            | error e =>
              simp [acctUpdate_commit_error cfg c m t2 req t2 t2 e hv hb2 hu2 hcm2]
            | ok d2 =>
              have hd2 : d2 = t2 := hCommit t2 t2 d2 hcm2
              simp [acctUpdate_commit_ok cfg c m t2 req t2 t2 d2 hv hb2 hu2 hcm2, hd2]

/-- C17 at the accounting request of `bob` against the sample store with the
session open: the first run commits the reported counters, and the replay
leaves the store equal. -/
theorem acctUpdate_replay_witness :
    (acctUpdate quiet sampleCodec sampleBackend (bobStore true 1) acctRequest).db.sessions
        = [Session.mk 1000 2000 10 20 [0] 60 bob nas]
      ∧ (acctUpdate quiet sampleCodec sampleBackend
          (acctUpdate quiet sampleCodec sampleBackend (bobStore true 1) acctRequest).db
          acctRequest).db
        = (acctUpdate quiet sampleCodec sampleBackend (bobStore true 1) acctRequest).db :=
  ⟨by decide,
   acctUpdate_replay quiet sampleCodec sampleBackend (bobStore true 1) acctRequest
     (fun d t h => by
        simp only [sampleBackend, Except.ok.injEq] at h
        exact h.symm)
     (fun d t d1 h => by
        simp only [sampleBackend, Except.ok.injEq] at h
        exact h.symm)
     (fun t s t1 t2 h1 h2 => sampleBackend_update_twice t t1 t2 s h1 h2)
     (by decide)⟩

/-! ### C18: the queue tuple and the snapshot -/

/-- C18: in `acctUpdate` and in `acctStop`, every queue notification carries
the request's `UserName` and the decoded `AcctInputOctets`,
`AcctOutputOctets`, `AcctInputPackets` and `AcctOutputPackets`, which are the
`User`, `BytesIn`, `BytesOut`, `PacketsIn` and `PacketsOut` of the snapshot
`createSess` that was passed to the successful `SessionUpdate` of the same
run; every `SessionUpdate` is passed that snapshot; and in `acctStop` every
`SessionLog` and `SessionRemove` is given the snapshot's `SessionID`, `User`
and `NasIP`. -/
theorem queue_tuple_matches_snapshot {DB Txn : Type} (cfg : Config) (c : Codec)
    (m : Backend DB Txn) (db : DB) (req : Packet) :
    (Event.Queue (req.value AttributeType.UserName)
        (c.DecodeFour (req.value AttributeType.AcctInputOctets))
        (c.DecodeFour (req.value AttributeType.AcctOutputOctets))
        (c.DecodeFour (req.value AttributeType.AcctInputPackets))
        (c.DecodeFour (req.value AttributeType.AcctOutputPackets))
      = Event.Queue (createSess c req).User (createSess c req).BytesIn
          (createSess c req).BytesOut (createSess c req).PacketsIn
          (createSess c req).PacketsOut)
    ∧ (∀ ev ∈ (acctUpdate cfg c m db req).trace, ev.isQueue = true →
        ev = Event.Queue (req.value AttributeType.UserName)
            (c.DecodeFour (req.value AttributeType.AcctInputOctets))
            (c.DecodeFour (req.value AttributeType.AcctOutputOctets))
            (c.DecodeFour (req.value AttributeType.AcctInputPackets))
            (c.DecodeFour (req.value AttributeType.AcctOutputPackets))
          ∧ Event.SessionUpdate (createSess c req) true ∈ (acctUpdate cfg c m db req).trace)
    ∧ (∀ s ok, Event.SessionUpdate s ok ∈ (acctUpdate cfg c m db req).trace →
        s = createSess c req)
    ∧ (∀ ev ∈ (acctStop cfg c m db req).trace, ev.isQueue = true →
        ev = Event.Queue (req.value AttributeType.UserName)
            (c.DecodeFour (req.value AttributeType.AcctInputOctets))
            (c.DecodeFour (req.value AttributeType.AcctOutputOctets))
            (c.DecodeFour (req.value AttributeType.AcctInputPackets))
            (c.DecodeFour (req.value AttributeType.AcctOutputPackets))
          ∧ Event.SessionUpdate (createSess c req) true ∈ (acctStop cfg c m db req).trace)
    ∧ (∀ s ok, Event.SessionUpdate s ok ∈ (acctStop cfg c m db req).trace →
        s = createSess c req)
    ∧ (∀ sess user nasIp ok,
        (Event.SessionLog sess user nasIp ok ∈ (acctStop cfg c m db req).trace
          ∨ Event.SessionRemove sess user nasIp ok ∈ (acctStop cfg c m db req).trace) →
        sess = (createSess c req).SessionID ∧ user = (createSess c req).User
          ∧ nasIp = (createSess c req).NasIP) := by
  refine ⟨rfl, ?_, ?_, ?_, ?_, ?_⟩
  · by_cases hv : c.ValidateAcctRequest req = ""
    swap
    · simp [acctUpdate_invalid cfg c m db req hv, Event.isQueue]
    cases hverb : cfg.Verbose <;>
    cases hb : m.Begin db with
    | error e =>
      simp [acctUpdate_begin_error cfg c m db req e hv hb, verboseLog, hverb, Event.isQueue]
    | ok txn =>
      cases hu : m.SessionUpdate txn (createSess c req) with
      | error e =>
        simp [acctUpdate_update_error cfg c m db req txn e hv hb hu, verboseLog, hverb,
          Event.isQueue]
      | ok txn1 =>
        cases hcm : m.Commit db txn1 with
        | error e =>
          simp [acctUpdate_commit_error cfg c m db req txn txn1 e hv hb hu hcm, verboseLog,
            hverb, Event.isQueue, createSess]
        | ok db1 =>
          simp [acctUpdate_commit_ok cfg c m db req txn txn1 db1 hv hb hu hcm, verboseLog,
            hverb, Event.isQueue, createSess]
  · by_cases hv : c.ValidateAcctRequest req = ""
    swap
    · simp [acctUpdate_invalid cfg c m db req hv]
    cases hverb : cfg.Verbose <;>
    cases hb : m.Begin db with
    | error e =>
      simp [acctUpdate_begin_error cfg c m db req e hv hb, verboseLog, hverb]
    | ok txn =>
      cases hu : m.SessionUpdate txn (createSess c req) with
      | error e =>
        simp [acctUpdate_update_error cfg c m db req txn e hv hb hu, verboseLog, hverb]
      | ok txn1 =>
        cases hcm : m.Commit db txn1 with
        | error e =>
          simp [acctUpdate_commit_error cfg c m db req txn txn1 e hv hb hu hcm, verboseLog,
            hverb]
        | ok db1 =>
          simp [acctUpdate_commit_ok cfg c m db req txn txn1 db1 hv hb hu hcm, verboseLog,
            hverb]
  all_goals
    by_cases hv : c.ValidateAcctRequest req = ""
    swap
    · simp [acctStop_invalid cfg c m db req hv, Event.isQueue]
      try tauto
    cases hverb : cfg.Verbose <;>
    cases hb : m.Begin db with
    | error e =>
      simp [acctStop_begin_error cfg c m db req e hv hb, verboseLog, hverb, Event.isQueue]
      try tauto
    | ok txn =>
      cases hu : m.SessionUpdate txn (createSess c req) with
      | error e =>
        simp [acctStop_update_error cfg c m db req txn e hv hb hu, verboseLog, hverb,
          Event.isQueue]
        try tauto
      | ok txn1 =>
        cases hl : m.SessionLog txn1 (req.value AttributeType.AcctSessionId)
            (req.value AttributeType.UserName)
            (c.DecodeIP (req.value AttributeType.NASIPAddress)) with
        | error e =>
          simp [acctStop_log_error cfg c m db req txn txn1 e hv hb hu hl, verboseLog, hverb,
            Event.isQueue, createSess]
          try tauto
        | ok txn2 =>
          cases hr : m.SessionRemove txn2 (req.value AttributeType.AcctSessionId)
              (req.value AttributeType.UserName)
              (c.DecodeIP (req.value AttributeType.NASIPAddress)) with
          | error e =>
            simp [acctStop_remove_error cfg c m db req txn txn1 txn2 e hv hb hu hl hr,
              verboseLog, hverb, Event.isQueue, createSess]
            try tauto
          | ok txn3 =>
            cases hcm : m.Commit db txn3 with
            | error e =>
              simp [acctStop_commit_error cfg c m db req txn txn1 txn2 txn3 e hv hb hu hl hr
                hcm, verboseLog, hverb, Event.isQueue, createSess]
              try tauto
            | ok db1 =>
              simp [acctStop_commit_ok cfg c m db req txn txn1 txn2 txn3 db1 hv hb hu hl hr
                hcm, verboseLog, hverb, Event.isQueue, createSess]
              try tauto

/-- C18 at the Accounting-Stop of `bob` (scenario 4 of the specification): the
queue receives `(bob, 1000, 2000, 10, 20)`, the snapshot with these counters
was passed to `SessionUpdate`, the row is removed and the terminal log record
appended. -/
theorem queue_tuple_matches_snapshot_witness :
    Event.Queue bob 1000 2000 10 20
        ∈ (acctStop quiet sampleCodec sampleBackend (bobStore true 1) acctRequest).trace
      ∧ Event.SessionUpdate (createSess sampleCodec acctRequest) true
        ∈ (acctStop quiet sampleCodec sampleBackend (bobStore true 1) acctRequest).trace
      ∧ createSess sampleCodec acctRequest = Session.mk 1000 2000 10 20 [0] 60 bob nas
      ∧ (acctStop quiet sampleCodec sampleBackend (bobStore true 1) acctRequest).db
        = Store.mk [(bob, bobLimits true)] [] [([0], bob, nas)] :=
  have h := (queue_tuple_matches_snapshot quiet sampleCodec sampleBackend (bobStore true 1)
    acctRequest).2.2.2.1 (Event.Queue bob 1000 2000 10 20) (by decide) (by decide)
  ⟨by decide, h.2, by decide, by decide⟩

/-! ### C19: PAP takes precedence over CHAP -/

/-- C19: when an Access-Request carries `UserPassword`, the run of `auth`
does not depend on the `CHAPPassword` and `CHAPChallenge` attributes: two
requests that agree on every other attribute and are both accepted by the
validator give the same run (same store, same effects, same packets written)
for the same collaborator results, the decrypted password included. -/
theorem auth_pap_ignores_chap {DB Txn : Type} (cfg : Config) (c : Codec)
    (m : Backend DB Txn) (db : DB) (req1 req2 : Packet)
    (hp : req1.has AttributeType.UserPassword = true)
    (hsame : ∀ t, t ≠ AttributeType.CHAPPassword → t ≠ AttributeType.CHAPChallenge →
      req1.Attrs t = req2.Attrs t)
    (hv1 : c.ValidateAuthRequest req1 = "") (hv2 : c.ValidateAuthRequest req2 = "")
    (hdec : c.DecryptPassword (req1.value AttributeType.UserPassword) req1
      = c.DecryptPassword (req2.value AttributeType.UserPassword) req2) :
    auth cfg c m db req1 = auth cfg c m db req2 := by
  have hu : req2.value AttributeType.UserName = req1.value AttributeType.UserName := by
    simp [Packet.value, hsame AttributeType.UserName (by decide) (by decide)]
  have hp2 : req2.has AttributeType.UserPassword = true := by
    rw [← hp]
    simp [Packet.has, hsame AttributeType.UserPassword (by decide) (by decide)]
  cases ha : m.Auth db (req1.value AttributeType.UserName) with
  | error e => simp [auth, hv1, hv2, hu, ha]
  | ok limits =>
    by_cases hpass : limits.Pass = []
    · simp [auth, hv1, hv2, hu, ha, hpass]
    · by_cases hd : c.DecryptPassword (req1.value AttributeType.UserPassword) req1
          = limits.Pass
      · have hd2 := hd
        rw [hdec] at hd2
        simp [auth, hv1, hv2, hu, ha, hpass, hp, hp2, hd, hd2]
      · have hd2 := hd
        rw [hdec] at hd2
        simp [auth, hv1, hv2, hu, ha, hpass, hp, hp2, hd, hd2]

/-- C19 at the PAP request of `bob` and the same request with a `CHAPPassword`
of length zero added: both give the same accepting run. -/
theorem auth_pap_ignores_chap_witness :
    auth quiet sampleCodec sampleBackend (bobStore true 0) (papRequest secret)
        = auth quiet sampleCodec sampleBackend (bobStore true 0)
            ((papRequest secret).setAttr AttributeType.CHAPPassword [])
      ∧ (auth quiet sampleCodec sampleBackend (bobStore true 0)
            ((papRequest secret).setAttr AttributeType.CHAPPassword [])).accepts = true :=
  ⟨auth_pap_ignores_chap quiet sampleCodec sampleBackend (bobStore true 0) (papRequest secret)
      ((papRequest secret).setAttr AttributeType.CHAPPassword [])
      (by decide)
      (fun t h1 _ => by simp [Packet.setAttr, h1])
      (by decide) (by decide) (by decide),
   by decide⟩

end Radiusd
